import Mathlib

/-!
Shallow embedding of the health-pass backend (record stores, health-pass
composer, access-by-code flow, AI-collaborator normalization) together with
theorems settling the specification claims about it.

Source conventions:
* Mongo documents become Lean structures; the database is a record of lists.
* Dates (`Date`) are modelled as `Nat` instants; `new Date() > x` is `x < now`.
* Fallible service methods (`throw new NotFoundError(...)`) return `Except`.
* External collaborators (uuid, QR rendering, the generative-AI HTTP call)
  are parameters of the embedded operations; the pure normalization that the
  source performs on their output is embedded faithfully.
-/

/-- Error taxonomy. Modelled from the spec: the AppError subclasses
(`NotFoundError` 404, `ConflictError` 409) live in the common package whose
errors module is not among the provided sources; the spec's §7 taxonomy fixes
their status codes. Each carries the message the service threw. -/
inductive AppError where
  | notFound (msg : String)
  | conflict (msg : String)
  deriving DecidableEq, Repr

/-- Status code of an AppError. Modelled from the spec: `NotFoundError` (404),
`ConflictError` (409, duplicate record). -/
def AppError.statusCode : AppError → Nat
  | .notFound _ => 404
  | .conflict _ => 409

/-- Message carried by an AppError. -/
def AppError.message : AppError → String
  | .notFound m => m
  | .conflict m => m

/-- Shape of the JSON body the Express error middleware sends for an
`AppError` (error-handler.ts, AppError branch). -/
structure ErrorResponse where
  status : Nat
  success : Bool
  error : String
  deriving DecidableEq, Repr

/-- Embeds the `err instanceof AppError` branch of `errorHandler`
(src/apps/api/src/middleware/error-handler.ts): respond with the error's
own status code, `success: false`, and the error's message. -/
def errorHandler (e : AppError) : ErrorResponse :=
  { status := e.statusCode, success := false, error := e.message }

/-- HealthPassStatus enumeration (values used by the source:
DRAFT, GENERATED, SHARED, EXPIRED). -/
inductive HealthPassStatus where
  | draft
  | generated
  | shared
  | expired
  deriving DecidableEq, Repr

/-- HEALTH_PASS_EXPIRY_HOURS constant (part_000). -/
def HEALTH_PASS_EXPIRY_HOURS : Nat := 24

/-- User document (identity fields that the health-pass flow reads). -/
structure UserRec where
  id : String
  fullName : String
  dateOfBirth : Nat
  gender : Option String
  deriving DecidableEq, Repr

/-- MedicalCondition document. -/
structure MedicalCondition where
  id : String
  userId : String
  name : String
  diagnosedDate : Option Nat
  notes : Option String
  isActive : Bool
  deriving DecidableEq, Repr

/-- Medication document. -/
structure Medication where
  id : String
  userId : String
  medicationName : String
  dosageAmount : String
  frequency : String
  notes : Option String
  isActive : Bool
  deriving DecidableEq, Repr

/-- Allergy document. -/
structure Allergy where
  id : String
  userId : String
  allergen : String
  type : String
  severity : String
  reaction : Option String
  notes : Option String
  isActive : Bool
  deriving DecidableEq, Repr

/-- Lifestyle document. -/
structure Lifestyle where
  id : String
  userId : String
  category : String
  description : String
  frequency : String
  notes : Option String
  isActive : Bool
  deriving DecidableEq, Repr

/-- MedicalDocument document; `isConfirmed` separates AI-drafted from
user-approved records (document.service getSummaries also filters on it). -/
structure DocumentRec where
  id : String
  userId : String
  documentName : String
  documentType : String
  documentDate : Option Nat
  notes : Option String
  fileUrl : String
  isActive : Bool
  isConfirmed : Bool
  deriving DecidableEq, Repr

/-- SharedDataToggles subdocument (part_010): three always-true identity
toggles, five per-category booleans, and optional specific-ID arrays (the
first health-pass service variant also writes `specificLifestyles`, which the
Mixed-severity schema admits). -/
structure SharedDataToggles where
  name : Bool
  gender : Bool
  dateOfBirth : Bool
  medicalConditions : Bool
  medications : Bool
  allergies : Bool
  lifestyleChoices : Bool
  documents : Bool
  specificConditions : Option (List String)
  specificMedications : Option (List String)
  specificAllergies : Option (List String)
  specificLifestyles : Option (List String)
  specificDocuments : Option (List String)
  deriving DecidableEq, Repr

/-- Per-item relevance judgment returned by the recommendation collaborator
(AiItemRecommendationDto). -/
structure AiItemRecommendation where
  id : String
  isRelevant : Bool
  recommendation : String
  deriving DecidableEq, Repr

/-- Frozen per-item judgment snapshot stored on the pass
(`aiItemRecommendations`). -/
structure AiItemRecommendations where
  conditionRecommendations : List AiItemRecommendation
  medicationRecommendations : List AiItemRecommendation
  allergyRecommendations : List AiItemRecommendation
  lifestyleRecommendations : List AiItemRecommendation
  documentRecommendations : List AiItemRecommendation
  deriving DecidableEq, Repr

/-- HealthPass document (part_010 plus the fields the first service variant
persists: profile summary and item-recommendation snapshot). -/
structure HealthPass where
  id : String
  userId : String
  appointmentSpecialty : String
  appointmentDate : Option Nat
  appointmentNotes : Option String
  qrCode : String
  accessCode : String
  status : HealthPassStatus
  dataToggles : SharedDataToggles
  aiRecommendations : Option String
  aiProfileSummary : Option String
  aiItemRecommendations : Option AiItemRecommendations
  expiresAt : Nat
  lastAccessedAt : Option Nat
  accessCount : Nat
  deriving DecidableEq, Repr

/-- The persistent store: one collection per entity. -/
structure DB where
  users : List UserRec
  conditions : List MedicalCondition
  medications : List Medication
  allergies : List Allergy
  lifestyles : List Lifestyle
  documents : List DocumentRec
  passes : List HealthPass
  deriving DecidableEq, Repr

/-- userService.findById: the user with the given id, if any. -/
def findUser (db : DB) (userId : String) : Option UserRec :=
  db.users.find? (fun u => u.id == userId)

/-- medicalConditionService.findByUserId with the default `activeOnly = true`:
`MedicalConditionModel.find({ userId, isActive: true })`. -/
def conditionFindByUserId (db : DB) (userId : String) : List MedicalCondition :=
  db.conditions.filter (fun c => c.userId == userId && c.isActive)

/-- medicationService.findByUserId with the default `activeOnly = true`. -/
def medicationFindByUserId (db : DB) (userId : String) : List Medication :=
  db.medications.filter (fun m => m.userId == userId && m.isActive)

/-- allergyService.findByUserId with the default `activeOnly = true`. -/
def allergyFindByUserId (db : DB) (userId : String) : List Allergy :=
  db.allergies.filter (fun a => a.userId == userId && a.isActive)

/-- lifestyleService.findByUserId with the default `activeOnly = true`. -/
def lifestyleFindByUserId (db : DB) (userId : String) : List Lifestyle :=
  db.lifestyles.filter (fun l => l.userId == userId && l.isActive)

/-- documentService.findByUserId with the default `activeOnly = true`. -/
def documentFindByUserId (db : DB) (userId : String) : List DocumentRec :=
  db.documents.filter (fun d => d.userId == userId && d.isActive)

/-- Embeds JavaScript's String.prototype.toLowerCase as an executable
character-list transformation. -/
def strToLower (s : String) : String := String.mk (s.data.map Char.toLower)

/-- Embeds JavaScript's String.prototype.trim as an executable character-list
transformation (strip leading and trailing whitespace). -/
def strTrim (s : String) : String :=
  String.mk (((s.data.dropWhile Char.isWhitespace).reverse.dropWhile Char.isWhitespace).reverse)

/-- Normalized (trimmed, lower-cased) comparison that the source's
case-insensitive anchored regular expression `^key$` with the `i` flag
performs against a stored string. -/
def ciMatch (stored dtoValue : String) : Bool :=
  strToLower stored == strToLower (strTrim dtoValue)

/-- MedicalConditionSummaryDto produced by part_006 getSummaries. -/
structure MedicalConditionSummary where
  id : String
  name : String
  diagnosedDate : Option Nat
  deriving DecidableEq, Repr

/-- MedicationSummaryDto produced by medication.service getSummaries. -/
structure MedicationSummary where
  id : String
  medicationName : String
  dosageAmount : String
  frequency : String
  deriving DecidableEq, Repr

/-- AllergySummaryDto produced by allergy.service getSummaries. -/
structure AllergySummary where
  id : String
  allergen : String
  type : String
  severity : String
  deriving DecidableEq, Repr

/-- LifestyleSummaryDto produced by lifestyle.service getSummaries. -/
structure LifestyleSummary where
  id : String
  category : String
  description : String
  deriving DecidableEq, Repr

/-- DocumentSummaryDto produced by document.service getSummaries. -/
structure DocumentSummary where
  id : String
  documentName : String
  documentType : String
  documentDate : Option Nat
  deriving DecidableEq, Repr

/-- Embeds the shared `specificIds` guard of every getSummaries variant:
`if (specificIds && specificIds.length > 0) query._id = { $in: specificIds }`.
The id filter applies only when the list is present and non-empty. -/
def applySpecificIds {α : Type} (getId : α → String)
    (specificIds : Option (List String)) (base : List α) : List α :=
  match specificIds with
  | some ids => if ids.length > 0 then base.filter (fun x => ids.contains (getId x)) else base
  | none => base

/-- medicalConditionService.getSummaries (part_006 lines 79-91). -/
def conditionGetSummaries (db : DB) (userId : String)
    (specificIds : Option (List String)) : List MedicalConditionSummary :=
  (applySpecificIds (·.id) specificIds
      (db.conditions.filter (fun c => c.userId == userId && c.isActive))).map
    (fun c => { id := c.id, name := c.name, diagnosedDate := c.diagnosedDate })

/-- medicationService.getSummaries (medication.service.ts lines 124-137). -/
def medicationGetSummaries (db : DB) (userId : String)
    (specificIds : Option (List String)) : List MedicationSummary :=
  (applySpecificIds (·.id) specificIds
      (db.medications.filter (fun m => m.userId == userId && m.isActive))).map
    (fun m => { id := m.id, medicationName := m.medicationName,
                dosageAmount := m.dosageAmount, frequency := m.frequency })

/-- allergyService.getSummaries (allergy.service.ts lines 82-95). -/
def allergyGetSummaries (db : DB) (userId : String)
    (specificIds : Option (List String)) : List AllergySummary :=
  (applySpecificIds (·.id) specificIds
      (db.allergies.filter (fun a => a.userId == userId && a.isActive))).map
    (fun a => { id := a.id, allergen := a.allergen, type := a.type,
                severity := a.severity })

/-- lifestyleService.getSummaries (no specificIds parameter). -/
def lifestyleGetSummaries (db : DB) (userId : String) : List LifestyleSummary :=
  (db.lifestyles.filter (fun l => l.userId == userId && l.isActive)).map
    (fun l => { id := l.id, category := l.category, description := l.description })

/-- documentService.getSummaries; additionally requires `isConfirmed`. -/
def documentGetSummaries (db : DB) (userId : String)
    (specificIds : Option (List String)) : List DocumentSummary :=
  (applySpecificIds (·.id) specificIds
      (db.documents.filter (fun d => d.userId == userId && d.isActive && d.isConfirmed))).map
    (fun d => { id := d.id, documentName := d.documentName,
                documentType := d.documentType, documentDate := d.documentDate })

/-- Preview item for a medical condition in the populated preview of the
first health-pass service variant (part_008 lines 239-248). -/
structure CondPreviewItem where
  id : String
  name : String
  diagnosedDate : Option Nat
  notes : Option String
  aiRecommendation : Option String
  deriving DecidableEq, Repr

/-- Preview item for a medication (part_008 lines 254-264). -/
structure MedPreviewItem where
  id : String
  medicationName : String
  dosageAmount : String
  frequency : String
  notes : Option String
  aiRecommendation : Option String
  deriving DecidableEq, Repr

/-- Preview item for an allergy (part_008 lines 270-280). -/
structure AllergyPreviewItem where
  id : String
  allergen : String
  type : String
  severity : String
  reaction : Option String
  aiRecommendation : Option String
  deriving DecidableEq, Repr

/-- Preview item for a lifestyle habit (part_008 lines 286-295). -/
structure LifestylePreviewItem where
  id : String
  category : String
  description : String
  frequency : String
  aiRecommendation : Option String
  deriving DecidableEq, Repr

/-- Preview item for a document (part_008 lines 301-312). -/
structure DocPreviewItem where
  id : String
  documentName : String
  documentType : String
  documentDate : Option Nat
  notes : Option String
  fileUrl : String
  aiRecommendation : Option String
  deriving DecidableEq, Repr

/-- HealthPassPreviewDto rendered by the first service variant's
generatePreview (part_008 lines 208-316). -/
structure HealthPassPreview where
  patientName : String
  dateOfBirth : Nat
  gender : Option String
  appointmentSpecialty : String
  appointmentDate : Option Nat
  appointmentNotes : Option String
  aiRecommendations : Option String
  aiProfileSummary : Option String
  medicalConditions : Option (List CondPreviewItem)
  medications : Option (List MedPreviewItem)
  allergies : Option (List AllergyPreviewItem)
  lifestyleChoices : Option (List LifestylePreviewItem)
  documents : Option (List DocPreviewItem)
  deriving DecidableEq, Repr

/-- Frozen-snapshot lookup `storedRecommendations?.xxx?.find(r => r.id === id)`
followed by `rec?.recommendation`. -/
def snapshotRecommendation (stored : Option AiItemRecommendations)
    (proj : AiItemRecommendations → List AiItemRecommendation)
    (itemId : String) : Option String :=
  (stored.bind (fun s => (proj s).find? (fun r => r.id == itemId))).map
    (·.recommendation)

/-- Embeds generatePreview of the first health-pass service variant
(part_008 lines 208-316): re-fetch the user and the owner's current active
records, then for each category whose boolean toggle is on and whose
specific-ID array is present, keep exactly the fetched records whose id the
array contains, joining each with its frozen snapshot recommendation.
`userService.findById` throwing NotFoundError is the only failure. -/
def generatePreview (db : DB) (healthPass : HealthPass) :
    Except AppError HealthPassPreview :=
  match findUser db healthPass.userId with
  | none => .error (.notFound "User not found")
  | some user =>
    let userId := healthPass.userId
    let toggles := healthPass.dataToggles
    let conditions := conditionFindByUserId db userId
    let medications := medicationFindByUserId db userId
    let allergies := allergyFindByUserId db userId
    let lifestyles := lifestyleFindByUserId db userId
    let documents := documentFindByUserId db userId
    let storedRecommendations := healthPass.aiItemRecommendations
    .ok {
      patientName := user.fullName
      dateOfBirth := user.dateOfBirth
      gender := user.gender
      appointmentSpecialty := healthPass.appointmentSpecialty
      appointmentDate := healthPass.appointmentDate
      appointmentNotes := healthPass.appointmentNotes
      aiRecommendations := healthPass.aiRecommendations
      aiProfileSummary := healthPass.aiProfileSummary
      medicalConditions :=
        match toggles.medicalConditions, toggles.specificConditions with
        | true, some specific =>
          some ((conditions.filter (fun c => specific.contains c.id)).map (fun c =>
            { id := c.id, name := c.name, diagnosedDate := c.diagnosedDate,
              notes := c.notes,
              aiRecommendation :=
                snapshotRecommendation storedRecommendations
                  (·.conditionRecommendations) c.id }))
        | _, _ => none
      medications :=
        match toggles.medications, toggles.specificMedications with
        | true, some specific =>
          some ((medications.filter (fun m => specific.contains m.id)).map (fun m =>
            { id := m.id, medicationName := m.medicationName,
              dosageAmount := m.dosageAmount, frequency := m.frequency,
              notes := m.notes,
              aiRecommendation :=
                snapshotRecommendation storedRecommendations
                  (·.medicationRecommendations) m.id }))
        | _, _ => none
      allergies :=
        match toggles.allergies, toggles.specificAllergies with
        | true, some specific =>
          some ((allergies.filter (fun a => specific.contains a.id)).map (fun a =>
            { id := a.id, allergen := a.allergen, type := a.type,
              severity := a.severity, reaction := a.reaction,
              aiRecommendation :=
                snapshotRecommendation storedRecommendations
                  (·.allergyRecommendations) a.id }))
        | _, _ => none
      lifestyleChoices :=
        match toggles.lifestyleChoices, toggles.specificLifestyles with
        | true, some specific =>
          some ((lifestyles.filter (fun l => specific.contains l.id)).map (fun l =>
            { id := l.id, category := l.category, description := l.description,
              frequency := l.frequency,
              aiRecommendation :=
                snapshotRecommendation storedRecommendations
                  (·.lifestyleRecommendations) l.id }))
        | _, _ => none
      documents :=
        match toggles.documents, toggles.specificDocuments with
        | true, some specific =>
          some ((documents.filter (fun d => specific.contains d.id)).map (fun d =>
            { id := d.id, documentName := d.documentName,
              documentType := d.documentType, documentDate := d.documentDate,
              notes := d.notes, fileUrl := d.fileUrl,
              aiRecommendation :=
                snapshotRecommendation storedRecommendations
                  (·.documentRecommendations) d.id }))
        | _, _ => none }

/-- HealthPassPreviewDto rendered by the getSummaries-based generatePreview
(src/packages/services/src/health-pass.service.ts lines 127-176). -/
structure HealthPassPreviewSvc where
  patientName : String
  dateOfBirth : Nat
  gender : Option String
  appointmentSpecialty : String
  appointmentDate : Option Nat
  appointmentNotes : Option String
  aiRecommendations : Option String
  medicalConditions : Option (List MedicalConditionSummary)
  medications : Option (List MedicationSummary)
  allergies : Option (List AllergySummary)
  lifestyleChoices : Option (List LifestyleSummary)
  documents : Option (List DocumentSummary)
  deriving DecidableEq, Repr

/-- Embeds generatePreview of src/packages/services/src/health-pass.service.ts
(lines 127-176): each category whose boolean toggle is truthy is filled from
that category service's getSummaries with the manifest's specific-ID list. -/
def generatePreviewSvc (db : DB) (healthPass : HealthPass) :
    Except AppError HealthPassPreviewSvc :=
  match findUser db healthPass.userId with
  | none => .error (.notFound "User not found")
  | some user =>
    let toggles := healthPass.dataToggles
    let userId := healthPass.userId
    .ok {
      patientName := user.fullName
      dateOfBirth := user.dateOfBirth
      gender := user.gender
      appointmentSpecialty := healthPass.appointmentSpecialty
      appointmentDate := healthPass.appointmentDate
      appointmentNotes := healthPass.appointmentNotes
      aiRecommendations := healthPass.aiRecommendations
      medicalConditions :=
        if toggles.medicalConditions then
          some (conditionGetSummaries db userId toggles.specificConditions)
        else none
      medications :=
        if toggles.medications then
          some (medicationGetSummaries db userId toggles.specificMedications)
        else none
      allergies :=
        if toggles.allergies then
          some (allergyGetSummaries db userId toggles.specificAllergies)
        else none
      lifestyleChoices :=
        if toggles.lifestyleChoices then
          some (lifestyleGetSummaries db userId)
        else none
      documents :=
        if toggles.documents then
          some (documentGetSummaries db userId toggles.specificDocuments)
        else none }

/-- Mongo `findByIdAndUpdate(id, { $set: ... })` on the passes collection:
apply `f` to every pass whose id matches (ids are unique in practice; the
map form is the faithful reading of an update-by-id). -/
def updatePass (db : DB) (id : String) (f : HealthPass → HealthPass) : DB :=
  { db with passes := db.passes.map (fun p => if p.id == id then f p else p) }

/-- CreateHealthPassDto. -/
structure CreateHealthPassDto where
  appointmentSpecialty : String
  appointmentDate : Option Nat
  appointmentNotes : Option String
  deriving DecidableEq, Repr

/-- Collaborator result shape AiHealthPassSuggestionsDto (per-item judgment
lists plus the overall recommendation). -/
structure AiHealthPassSuggestions where
  conditionRecommendations : List AiItemRecommendation
  medicationRecommendations : List AiItemRecommendation
  allergyRecommendations : List AiItemRecommendation
  lifestyleRecommendations : List AiItemRecommendation
  documentRecommendations : List AiItemRecommendation
  overallRecommendation : String
  deriving DecidableEq, Repr

/-- The visibility manifest built by create (part_008 lines 64-79): the three
identity toggles and all five category booleans are literally `true`; each
specific-ID array is the ids of that category's items judged relevant. -/
def buildDataToggles (aiSuggestions : AiHealthPassSuggestions) : SharedDataToggles :=
  { name := true
    gender := true
    dateOfBirth := true
    medicalConditions := true
    medications := true
    allergies := true
    lifestyleChoices := true
    documents := true
    specificConditions :=
      some ((aiSuggestions.conditionRecommendations.filter (·.isRelevant)).map (·.id))
    specificMedications :=
      some ((aiSuggestions.medicationRecommendations.filter (·.isRelevant)).map (·.id))
    specificAllergies :=
      some ((aiSuggestions.allergyRecommendations.filter (·.isRelevant)).map (·.id))
    specificLifestyles :=
      some ((aiSuggestions.lifestyleRecommendations.filter (·.isRelevant)).map (·.id))
    specificDocuments :=
      some ((aiSuggestions.documentRecommendations.filter (·.isRelevant)).map (·.id)) }

/-- Embeds create of the first health-pass service variant (part_008 lines
40-136), with the external collaborators' outputs passed in: `aiSuggestions`
is what generateHealthPassRecommendations returned, `accessCode` the fresh
uuid, `qrCode` the rendered image, `aiProfileSummary` the generated summary,
`newId` the id Mongo assigns. The user fetch participates in the Promise.all
join, so a missing user aborts the whole creation. -/
def healthPassCreate (db : DB) (userId : String) (dto : CreateHealthPassDto)
    (aiSuggestions : AiHealthPassSuggestions)
    (accessCode qrCode newId aiProfileSummary : String) (now : Nat) :
    Except AppError (DB × HealthPass) :=
  match findUser db userId with
  | none => .error (.notFound "User not found")
  | some _user =>
    let expiresAt := now + HEALTH_PASS_EXPIRY_HOURS * 60 * 60 * 1000
    let dataToggles := buildDataToggles aiSuggestions
    let healthPass : HealthPass :=
      { id := newId
        userId := userId
        appointmentSpecialty := dto.appointmentSpecialty
        appointmentDate := dto.appointmentDate
        appointmentNotes := dto.appointmentNotes
        qrCode := qrCode
        accessCode := accessCode
        status := .generated
        dataToggles := dataToggles
        aiRecommendations := some aiSuggestions.overallRecommendation
        aiProfileSummary := some aiProfileSummary
        aiItemRecommendations := some
          { conditionRecommendations := aiSuggestions.conditionRecommendations
            medicationRecommendations := aiSuggestions.medicationRecommendations
            allergyRecommendations := aiSuggestions.allergyRecommendations
            lifestyleRecommendations := aiSuggestions.lifestyleRecommendations
            documentRecommendations := aiSuggestions.documentRecommendations }
        expiresAt := expiresAt
        lastAccessedAt := none
        accessCount := 0 }
    .ok ({ db with passes := db.passes ++ [healthPass] }, healthPass)

/-- Toggle payload carried inside UpdateHealthPassDto.dataToggles: the same
shape as the stored manifest, with every field settable by the client
(including attempts to set the identity toggles false). -/
structure UpdateHealthPassDto where
  appointmentDate : Option Nat
  appointmentNotes : Option String
  dataToggles : Option SharedDataToggles
  deriving DecidableEq, Repr

/-- Embeds update (part_008 lines 321-343): copy the payload, force the
`name`, `gender`, `dateOfBirth` toggles back to true whenever a dataToggles
object is present, then `$set` the provided fields on the pass;
NotFoundError when no pass has the id. -/
def healthPassUpdate (db : DB) (id : String) (dto : UpdateHealthPassDto) :
    Except AppError DB :=
  let forcedToggles := dto.dataToggles.map (fun t =>
    { t with name := true, gender := true, dateOfBirth := true })
  if db.passes.any (fun p => p.id == id) then
    .ok (updatePass db id (fun p =>
      { p with
        appointmentDate :=
          match dto.appointmentDate with
          | some d => some d
          | none => p.appointmentDate
        appointmentNotes :=
          match dto.appointmentNotes with
          | some n => some n
          | none => p.appointmentNotes
        dataToggles := forcedToggles.getD p.dataToggles }))
  else .error (.notFound "Health pass not found")

/-- Item categories accepted by toggleItem. -/
inductive ItemType where
  | medicalCondition
  | medication
  | allergy
  | lifestyle
  | document
  deriving DecidableEq, Repr

/-- Read the specific-ID array of the manifest field that `fieldMap` assigns
to the item type. -/
def togglesField (t : SharedDataToggles) : ItemType → Option (List String)
  | .medicalCondition => t.specificConditions
  | .medication => t.specificMedications
  | .allergy => t.specificAllergies
  | .lifestyle => t.specificLifestyles
  | .document => t.specificDocuments

/-- Write the specific-ID array of the manifest field that `fieldMap` assigns
to the item type (the `$set` on the single dotted path). -/
def setTogglesField (t : SharedDataToggles) (it : ItemType) (l : List String) :
    SharedDataToggles :=
  match it with
  | .medicalCondition => { t with specificConditions := some l }
  | .medication => { t with specificMedications := some l }
  | .allergy => { t with specificAllergies := some l }
  | .lifestyle => { t with specificLifestyles := some l }
  | .document => { t with specificDocuments := some l }

/-- Embeds toggleItem (part_008 lines 392-442): look up the pass, read the
category's current array (defaulting a missing array to []), add the item id
if enabling and absent, remove every occurrence if disabling, and `$set` just
that dotted manifest path. NotFoundError when the pass does not exist. -/
def toggleItem (db : DB) (id : String) (itemType : ItemType) (itemId : String)
    (isEnabled : Bool) : Except AppError DB :=
  match db.passes.find? (fun p => p.id == id) with
  | none => .error (.notFound "Health pass not found")
  | some healthPass =>
    let currentArray := (togglesField healthPass.dataToggles itemType).getD []
    let updatedArray :=
      if isEnabled then
        if currentArray.contains itemId then currentArray
        else currentArray ++ [itemId]
      else
        currentArray.filter (fun x => x != itemId)
    .ok (updatePass db id (fun p =>
      { p with dataToggles := setTogglesField p.dataToggles itemType updatedArray }))

/-- Embeds regenerateQrCode (part_008 lines 363-383): any existing pass gets
a fresh access code, QR image and 24h expiry, and its status is set back to
GENERATED unconditionally; NotFoundError when the pass does not exist. -/
def regenerateQrCode (db : DB) (id newAccessCode newQrCode : String)
    (now : Nat) : Except AppError (DB × String) :=
  if db.passes.any (fun p => p.id == id) then
    .ok (updatePass db id (fun p =>
      { p with
        accessCode := newAccessCode
        qrCode := newQrCode
        expiresAt := now + HEALTH_PASS_EXPIRY_HOURS * 60 * 60 * 1000
        status := .generated }), newQrCode)
  else .error (.notFound "Health pass not found")

/-- Embeds findByAccessCode (part_008 lines 182-203). The returned DB carries
the writes performed even on the throwing paths (marking the pass expired
happens before the NotFoundError is thrown). The preview is rendered from the
in-memory pass object fetched before the tracking update, against the updated
store. -/
def findByAccessCode (db : DB) (now : Nat) (accessCode : String) :
    DB × Except AppError HealthPassPreview :=
  match db.passes.find? (fun p => p.accessCode == accessCode) with
  | none => (db, .error (.notFound "Health pass not found"))
  | some healthPass =>
    if healthPass.expiresAt < now then
      (updatePass db healthPass.id (fun p => { p with status := .expired }),
       .error (.notFound "Health pass has expired"))
    else
      let db1 := updatePass db healthPass.id (fun p =>
        { p with lastAccessedAt := some now, status := .shared,
                 accessCount := p.accessCount + 1 })
      (db1, generatePreview db1 healthPass)

/-- CreateMedicationDto fields the duplicate check and insert read. -/
structure CreateMedicationDto where
  medicationName : String
  dosageAmount : String
  frequency : String
  notes : Option String
  deriving DecidableEq, Repr

/-- Embeds medicationService.create (medication.service.ts lines 14-38):
reject with ConflictError when the user already holds an *active* medication
whose name and dosage both match the payload case-insensitively (anchored
`^trimmed$` regex with the `i` flag); otherwise insert the trimmed record. -/
def medicationCreate (db : DB) (userId : String) (dto : CreateMedicationDto)
    (newId : String) : Except AppError (DB × Medication) :=
  if db.medications.any (fun m =>
      m.userId == userId
        && ciMatch m.medicationName dto.medicationName
        && ciMatch m.dosageAmount dto.dosageAmount
        && m.isActive) then
    .error (.conflict ("You already have \"" ++ dto.medicationName ++ " "
      ++ dto.dosageAmount ++ "\" in your medications"))
  else
    let medication : Medication :=
      { id := newId
        userId := userId
        medicationName := strTrim dto.medicationName
        dosageAmount := strTrim dto.dosageAmount
        frequency := dto.frequency
        notes := dto.notes
        isActive := true }
    .ok ({ db with medications := db.medications ++ [medication] }, medication)

/-- Embeds medicationService.delete (medication.service.ts lines 110-119):
soft delete by setting `isActive: false`; NotFoundError when no medication
ever had the id. -/
def medicationDelete (db : DB) (id : String) : Except AppError DB :=
  if db.medications.any (fun m => m.id == id) then
    .ok { db with medications := db.medications.map (fun m =>
      if m.id == id then { m with isActive := false } else m) }
  else .error (.notFound "Medication not found")

/-- CreateAllergyDto fields that part_007 create reads. -/
structure CreateAllergyDto where
  allergen : String
  severity : String
  notes : Option String
  deriving DecidableEq, Repr

/-- Embeds the allergy create of part_007 (lines 63-88): reject with
ConflictError when the user already holds an *active* allergy whose allergen
matches the payload case-insensitively; otherwise insert the trimmed record
with the collaborator-inferred type (`inferredType` stands for the result of
the best-effort AI classification, `other` on failure). -/
def allergyCreate (db : DB) (userId : String) (dto : CreateAllergyDto)
    (inferredType newId : String) : Except AppError (DB × Allergy) :=
  if db.allergies.any (fun a =>
      a.userId == userId && ciMatch a.allergen dto.allergen && a.isActive) then
    .error (.conflict ("You already have \"" ++ dto.allergen
      ++ "\" in your allergies"))
  else
    let allergy : Allergy :=
      { id := newId
        userId := userId
        allergen := strTrim dto.allergen
        type := inferredType
        severity := dto.severity
        reaction := none
        notes := dto.notes
        isActive := true }
    .ok ({ db with allergies := db.allergies ++ [allergy] }, allergy)

/-- Embeds allergyService.delete (part_007 lines 154-163): soft delete. -/
def allergyDelete (db : DB) (id : String) : Except AppError DB :=
  if db.allergies.any (fun a => a.id == id) then
    .ok { db with allergies := db.allergies.map (fun a =>
      if a.id == id then { a with isActive := false } else a) }
  else .error (.notFound "Allergy not found")

/-- Lifestyle habit item as the AI service variant consumes it
(HabitResponseDto; only `category`, its item key, matters to the
normalization). -/
structure HabitRec where
  category : String
  frequency : String
  notes : Option String
  deriving DecidableEq, Repr

/-- Record set handed to generateHealthPassRecommendations
(ai.service.ts lines 461-469). -/
structure AiUserData where
  conditions : List MedicalCondition
  medications : List Medication
  allergies : List Allergy
  habits : List HabitRec
  documents : List DocumentRec
  deriving DecidableEq, Repr

/-- Collaborator response after JSON parsing and per-entry coercion
(`isRelevant: !!found.isRelevant`, `recommendation: found.recommendation ||
''`): each category's recommendation array may be absent, and items may be
omitted or carry ids that match nothing. -/
structure ParsedAiResponse where
  conditionRecommendations : Option (List AiItemRecommendation)
  medicationRecommendations : Option (List AiItemRecommendation)
  allergyRecommendations : Option (List AiItemRecommendation)
  habitRecommendations : Option (List AiItemRecommendation)
  documentRecommendations : Option (List AiItemRecommendation)
  overallRecommendation : Option String
  deriving DecidableEq, Repr

/-- Outcome of the generative-AI call: a parsed JSON response, or any thrown
failure (no response text, malformed JSON, transport error), which the
service catches. -/
inductive AiOutcome where
  | success (parsed : ParsedAiResponse)
  | failure
  deriving DecidableEq, Repr

/-- Result shape of ai.service.ts generateHealthPassRecommendations (the
variant with per-item judgments; habits keyed by category). -/
structure AiSuggestionsResult where
  conditionRecommendations : List AiItemRecommendation
  medicationRecommendations : List AiItemRecommendation
  allergyRecommendations : List AiItemRecommendation
  habitRecommendations : List AiItemRecommendation
  documentRecommendations : List AiItemRecommendation
  overallRecommendation : String
  deriving DecidableEq, Repr

/-- createDefaultRecommendation (ai.service.ts lines 540-544), used in the
success path for every item the parsed response omits, in every category. -/
def aiCreateDefaultRecommendation (id : String) : AiItemRecommendation :=
  { id := id, isRelevant := true,
    recommendation := "Recommended to share with your doctor." }

/-- Lookup-or-default step of the success path (ai.service.ts lines 546-574):
take the parsed entry with the item's id if one exists, else the default. -/
def aiMapItem (parsedList : Option (List AiItemRecommendation)) (id : String) :
    AiItemRecommendation :=
  match (parsedList.getD []).find? (fun r => r.id == id) with
  | some found =>
    { id := id, isRelevant := found.isRelevant,
      recommendation := found.recommendation }
  | none => aiCreateDefaultRecommendation id

/-- Embeds generateHealthPassRecommendations (ai.service.ts lines 461-616) as
a function of the collaborator outcome. Success: every item of the input gets
the parsed judgment when present, the (always-relevant) default when omitted.
Failure (caught): per-category defaults — relevant for conditions,
medications and allergies, not-relevant for habits and documents. -/
def generateHealthPassRecommendationsAi (userData : AiUserData)
    (outcome : AiOutcome) : AiSuggestionsResult :=
  match outcome with
  | .success parsed =>
    { conditionRecommendations :=
        userData.conditions.map (fun c => aiMapItem parsed.conditionRecommendations c.id)
      medicationRecommendations :=
        userData.medications.map (fun m => aiMapItem parsed.medicationRecommendations m.id)
      allergyRecommendations :=
        userData.allergies.map (fun a => aiMapItem parsed.allergyRecommendations a.id)
      habitRecommendations :=
        userData.habits.map (fun h => aiMapItem parsed.habitRecommendations h.category)
      documentRecommendations :=
        userData.documents.map (fun d => aiMapItem parsed.documentRecommendations d.id)
      overallRecommendation :=
        parsed.overallRecommendation.getD
          "Share relevant medical information with your doctor." }
  | .failure =>
    { conditionRecommendations := userData.conditions.map (fun c =>
        { id := c.id, isRelevant := true,
          recommendation := "Recommended to share with your doctor." })
      medicationRecommendations := userData.medications.map (fun m =>
        { id := m.id, isRelevant := true,
          recommendation := "Recommended to share with your doctor." })
      allergyRecommendations := userData.allergies.map (fun a =>
        { id := a.id, isRelevant := true,
          recommendation := "Important for medication safety." })
      habitRecommendations := userData.habits.map (fun h =>
        { id := h.category, isRelevant := false,
          recommendation := "Share if relevant to your appointment." })
      documentRecommendations := userData.documents.map (fun d =>
        { id := d.id, isRelevant := false,
          recommendation := "Share if relevant to your appointment." })
      overallRecommendation :=
        "We recommend sharing your medical conditions, medications, and allergies with your doctor for a comprehensive consultation." }

/-- Toggled record set handed to generateProfileSummary by part_008 create
(lines 96-102). -/
structure ToggledData where
  conditions : List MedicalCondition
  medications : List Medication
  allergies : List Allergy
  lifestyles : List Lifestyle
  documents : List DocumentRec
  deriving DecidableEq, Repr

/-- Optional per-category totals parameter of generateProfileSummary
(ai.service.ts lines 636-642). -/
structure TotalCounts where
  conditions : Nat
  medications : Nat
  allergies : Nat
  habits : Nat
  documents : Nat
  deriving DecidableEq, Repr

/-- Embeds formatCategoryStatus (ai.service.ts lines 655-668): shared items
are listed one per line; an empty shared list with a known positive total is
marked on-file-but-not-shared; otherwise the category reads as none on file
(also whenever no total was supplied at all). -/
def formatCategoryStatus {α : Type} (appointmentSpecialty : String)
    (sharedItems : List α) (totalCount : Option Nat) (formatItem : α → String)
    (_categoryName : String) : String :=
  if sharedItems.length > 0 then
    String.intercalate "\n" (sharedItems.map formatItem)
  else
    match totalCount with
    | some n =>
      if n > 0 then
        "None shared for this " ++ appointmentSpecialty ++ " appointment ("
          ++ toString n ++ " on file, not relevant to this specialty)"
      else "None on file"
    | none => "None on file"

/-- Per-category textual inputs that the profile-summary prompt embeds
(ai.service.ts lines 680-718); the category name arguments are those the
source passes. -/
structure ProfileSummaryCategoryInputs where
  conditionsStatus : String
  medicationsStatus : String
  allergiesStatus : String
  habitsStatus : String
  documentsStatus : String
  deriving DecidableEq, Repr

/-- Builds the prompt's five category-status blocks exactly as
generateProfileSummary does, using the source's per-item formatters. -/
def profileSummaryCategoryInputs (appointmentSpecialty : String)
    (toggledData : ToggledData) (totalCounts : Option TotalCounts) :
    ProfileSummaryCategoryInputs :=
  { conditionsStatus :=
      formatCategoryStatus appointmentSpecialty toggledData.conditions
        (totalCounts.map (·.conditions))
        (fun c => "- " ++ c.name
          ++ (match c.notes with | some n => " (" ++ n ++ ")" | none => ""))
        "conditions"
    medicationsStatus :=
      formatCategoryStatus appointmentSpecialty toggledData.medications
        (totalCounts.map (·.medications))
        (fun m => "- " ++ m.medicationName ++ " " ++ m.dosageAmount ++ " "
          ++ m.frequency)
        "medications"
    allergiesStatus :=
      formatCategoryStatus appointmentSpecialty toggledData.allergies
        (totalCounts.map (·.allergies))
        (fun a => "- " ++ a.allergen ++ " ("
          ++ (if a.severity == "" then "severity unknown" else a.severity) ++ ")"
          ++ (match a.notes with | some n => ": " ++ n | none => ""))
        "allergies"
    habitsStatus :=
      formatCategoryStatus appointmentSpecialty toggledData.lifestyles
        (totalCounts.map (·.habits))
        (fun h => "- " ++ h.category ++ ": " ++ h.frequency
          ++ (match h.notes with | some n => " (" ++ n ++ ")" | none => ""))
        "habits"
    documentsStatus :=
      formatCategoryStatus appointmentSpecialty toggledData.documents
        (totalCounts.map (·.documents))
        (fun d => "- " ++ d.documentName ++ " (" ++ d.documentType ++ ")"
          ++ (match d.notes with | some n => ": " ++ n | none => ""))
        "documents" }

/-- Embeds the profile-summary input that part_008 create assembles (lines
81-103): the toggled items are the owner's fetched active records filtered to
the manifest's relevant-ID lists, and — as in the source call, which passes
only three arguments — no totalCounts value is supplied. -/
def createProfileSummaryInputs (db : DB) (userId : String)
    (appointmentSpecialty : String) (aiSuggestions : AiHealthPassSuggestions) :
    ProfileSummaryCategoryInputs :=
  let dataToggles := buildDataToggles aiSuggestions
  let toggledData : ToggledData :=
    { conditions := (conditionFindByUserId db userId).filter
        (fun c => (dataToggles.specificConditions.getD []).contains c.id)
      medications := (medicationFindByUserId db userId).filter
        (fun m => (dataToggles.specificMedications.getD []).contains m.id)
      allergies := (allergyFindByUserId db userId).filter
        (fun a => (dataToggles.specificAllergies.getD []).contains a.id)
      lifestyles := (lifestyleFindByUserId db userId).filter
        (fun l => (dataToggles.specificLifestyles.getD []).contains l.id)
      documents := (documentFindByUserId db userId).filter
        (fun d => (dataToggles.specificDocuments.getD []).contains d.id) }
  profileSummaryCategoryInputs appointmentSpecialty toggledData none

/-- Property of a rendered preview: every item in every category list comes
from a record of `ownerId` that is active in `db` (the claim of the
subset-of-currently-active-records invariant). -/
def PreviewItemsActiveFor (db : DB) (ownerId : String)
    (pv : HealthPassPreview) : Prop :=
  (∀ item ∈ pv.medicalConditions.getD [], ∃ c ∈ db.conditions,
      c.isActive = true ∧ c.userId = ownerId ∧ c.id = item.id) ∧
  (∀ item ∈ pv.medications.getD [], ∃ m ∈ db.medications,
      m.isActive = true ∧ m.userId = ownerId ∧ m.id = item.id) ∧
  (∀ item ∈ pv.allergies.getD [], ∃ a ∈ db.allergies,
      a.isActive = true ∧ a.userId = ownerId ∧ a.id = item.id) ∧
  (∀ item ∈ pv.lifestyleChoices.getD [], ∃ l ∈ db.lifestyles,
      l.isActive = true ∧ l.userId = ownerId ∧ l.id = item.id) ∧
  (∀ item ∈ pv.documents.getD [], ∃ d ∈ db.documents,
      d.isActive = true ∧ d.userId = ownerId ∧ d.id = item.id)

/-- Concrete sample user. -/
def exUser : UserRec :=
  { id := "u1", fullName := "User One", dateOfBirth := 0, gender := some "female" }

/-- Manifest with every toggle off and no specific lists. -/
def exTogglesOff : SharedDataToggles :=
  { name := false, gender := false, dateOfBirth := false,
    medicalConditions := false, medications := false, allergies := false,
    lifestyleChoices := false, documents := false,
    specificConditions := none, specificMedications := none,
    specificAllergies := none, specificLifestyles := none,
    specificDocuments := none }

/-- Sample pass with the all-off manifest. -/
def exPassOff : HealthPass :=
  { id := "p0", userId := "u1", appointmentSpecialty := "cardiology",
    appointmentDate := none, appointmentNotes := none, qrCode := "q0",
    accessCode := "c0", status := .generated, dataToggles := exTogglesOff,
    aiRecommendations := none, aiProfileSummary := none,
    aiItemRecommendations := none, expiresAt := 100, lastAccessedAt := none,
    accessCount := 0 }

/-- Store with just the sample user and the all-off pass. -/
def exDB1 : DB :=
  { users := [exUser], conditions := [], medications := [], allergies := [],
    lifestyles := [], documents := [], passes := [exPassOff] }

/-- Preview that exDB1's all-off pass renders. -/
def exPreviewOff : HealthPassPreview :=
  { patientName := "User One", dateOfBirth := 0, gender := some "female",
    appointmentSpecialty := "cardiology", appointmentDate := none,
    appointmentNotes := none, aiRecommendations := none,
    aiProfileSummary := none, medicalConditions := none, medications := none,
    allergies := none, lifestyleChoices := none, documents := none }

/-- Sample pass that expires at instant 10. -/
def exPassExp : HealthPass :=
  { id := "p1", userId := "u1", appointmentSpecialty := "cardiology",
    appointmentDate := none, appointmentNotes := none, qrCode := "q1",
    accessCode := "c1", status := .generated, dataToggles := exTogglesOff,
    aiRecommendations := none, aiProfileSummary := none,
    aiItemRecommendations := none, expiresAt := 10, lastAccessedAt := none,
    accessCount := 3 }

/-- Store holding the expiring pass. -/
def exDB2 : DB :=
  { users := [exUser], conditions := [], medications := [], allergies := [],
    lifestyles := [], documents := [], passes := [exPassExp] }

/-- Sample pass already in the EXPIRED state. -/
def exPassE : HealthPass :=
  { id := "p3", userId := "u1", appointmentSpecialty := "cardiology",
    appointmentDate := none, appointmentNotes := none, qrCode := "q3",
    accessCode := "c3", status := .expired, dataToggles := exTogglesOff,
    aiRecommendations := none, aiProfileSummary := none,
    aiItemRecommendations := none, expiresAt := 10, lastAccessedAt := none,
    accessCount := 5 }

/-- Store holding the expired pass. -/
def exDB3 : DB :=
  { users := [exUser], conditions := [], medications := [], allergies := [],
    lifestyles := [], documents := [], passes := [exPassE] }

/-- Sample active medication owned by the sample user. -/
def exMedAspirin : Medication :=
  { id := "m1", userId := "u1", medicationName := "Aspirin",
    dosageAmount := "100mg", frequency := "daily", notes := none,
    isActive := true }

/-- Sample active allergy owned by the sample user. -/
def exAllergyPeanut : Allergy :=
  { id := "a1", userId := "u1", allergen := "Peanuts", type := "food",
    severity := "severe", reaction := none, notes := none, isActive := true }

/-- Collaborator result judging the sample medication not relevant. -/
def exAiMedNotRelevant : AiHealthPassSuggestions :=
  { conditionRecommendations := []
    medicationRecommendations :=
      [{ id := "m1", isRelevant := false, recommendation := "Not needed" }]
    allergyRecommendations := []
    lifestyleRecommendations := []
    documentRecommendations := []
    overallRecommendation := "" }

/-- Store with the sample user and the single active medication. -/
def exDB5 : DB :=
  { users := [exUser], conditions := [], medications := [exMedAspirin],
    allergies := [], lifestyles := [], documents := [], passes := [] }

/-- Collaborator result with no judgments at all. -/
def exAiEmpty : AiHealthPassSuggestions :=
  { conditionRecommendations := [], medicationRecommendations := [],
    allergyRecommendations := [], lifestyleRecommendations := [],
    documentRecommendations := [], overallRecommendation := "" }

/-- Sample pass-creation payload. -/
def exCreateDto : CreateHealthPassDto :=
  { appointmentSpecialty := "cardiology", appointmentDate := none,
    appointmentNotes := none }

/-- Update payload that tries to force every toggle off. -/
def exUpdateDtoAllOff : UpdateHealthPassDto :=
  { appointmentDate := none, appointmentNotes := none,
    dataToggles := some exTogglesOff }

/-- Manifest whose condition list holds the ids a and b. -/
def exTogglesAB : SharedDataToggles :=
  { exTogglesOff with
    medicalConditions := true
    specificConditions := some ["a", "b"] }

/-- Sample pass carrying the two-condition manifest. -/
def exPassT : HealthPass :=
  { exPassOff with id := "p6", accessCode := "c6", dataToggles := exTogglesAB }

/-- Store holding the two-condition pass. -/
def exDB6 : DB :=
  { users := [exUser], conditions := [], medications := [], allergies := [],
    lifestyles := [], documents := [], passes := [exPassT] }

/-- Empty store. -/
def exDB0 : DB :=
  { users := [], conditions := [], medications := [], allergies := [],
    lifestyles := [], documents := [], passes := [] }

/-- Sample confirmed document owned by the sample user. -/
def exDoc : DocumentRec :=
  { id := "d1", userId := "u1", documentName := "Scan", documentType := "lab",
    documentDate := none, notes := none, fileUrl := "url", isActive := true,
    isConfirmed := true }

/-- Sample lifestyle habit item. -/
def exHabit : HabitRec :=
  { category := "smoking", frequency := "daily", notes := none }

/-- Record set containing one habit and one document. -/
def exUserDataHD : AiUserData :=
  { conditions := [], medications := [], allergies := [], habits := [exHabit],
    documents := [exDoc] }

/-- Parsed collaborator response that omits every item. -/
def exParsedEmpty : ParsedAiResponse :=
  { conditionRecommendations := none, medicationRecommendations := none,
    allergyRecommendations := none, habitRecommendations := none,
    documentRecommendations := none, overallRecommendation := none }

/-- Parsed collaborator response that judges the sample document not
relevant. -/
def exParsedDoc : ParsedAiResponse :=
  { conditionRecommendations := none, medicationRecommendations := none,
    allergyRecommendations := none, habitRecommendations := none,
    documentRecommendations :=
      some [{ id := "d1", isRelevant := false, recommendation := "skip" }],
    overallRecommendation := some "overall" }

/-- Pass whose medication and allergy toggles are on while both specific-ID
lists are present but empty. -/
def exPassEmptySpec : HealthPass :=
  { exPassOff with
    id := "p7"
    accessCode := "c7"
    dataToggles := { exTogglesOff with
      medications := true
      allergies := true
      specificMedications := some []
      specificAllergies := some [] } }

/-- Store with one active medication and allergy and the empty-spec pass. -/
def exDB7 : DB :=
  { users := [exUser], conditions := [], medications := [exMedAspirin],
    allergies := [exAllergyPeanut], lifestyles := [], documents := [],
    passes := [exPassEmptySpec] }

/-- Manifest as stored after an update whose payload tried to clear every
toggle: the three identity toggles forced back on. -/
def exTogglesForced : SharedDataToggles :=
  { exTogglesOff with name := true, gender := true, dateOfBirth := true }

/-- The expiring pass after the all-off update payload. -/
def exPassExpUpd : HealthPass := { exPassExp with dataToggles := exTogglesForced }

/-- exDB2 after the all-off update payload. -/
def exDB2Upd : DB := { exDB2 with passes := [exPassExpUpd] }

/-- The two-condition pass after disabling item b. -/
def exPassTDel : HealthPass :=
  { exPassT with dataToggles := { exTogglesAB with specificConditions := some ["a"] } }

/-- exDB6 after disabling item b. -/
def exDB6Del : DB := { exDB6 with passes := [exPassTDel] }

/-- The expired pass after regenerateQrCode at instant 50. -/
def exPassERegen : HealthPass :=
  { exPassE with accessCode := "nc", qrCode := "nq", expiresAt := 50 + HEALTH_PASS_EXPIRY_HOURS * 60 * 60 * 1000, status := .generated }

/-- exDB3 after the regeneration. -/
def exDB3Regen : DB := { exDB3 with passes := [exPassERegen] }

/-- The expiring pass after a successful access at instant 5. -/
def exPassExpAccessed : HealthPass :=
  { exPassExp with lastAccessedAt := some 5, status := .shared, accessCount := 4 }

/-- The expiring pass after being marked expired. -/
def exPassExpExpired : HealthPass := { exPassExp with status := .expired }

/-- The pass produced by healthPassCreate on exDB1 with the empty collaborator
result, access code ac, QR image qr, id np, summary sum, at instant 0. -/
def exCreatedPass : HealthPass :=
  { id := "np", userId := "u1", appointmentSpecialty := "cardiology",
    appointmentDate := none, appointmentNotes := none, qrCode := "qr",
    accessCode := "ac", status := .generated,
    dataToggles := buildDataToggles exAiEmpty,
    aiRecommendations := some "", aiProfileSummary := some "sum",
    aiItemRecommendations := some
      { conditionRecommendations := [], medicationRecommendations := [],
        allergyRecommendations := [], lifestyleRecommendations := [],
        documentRecommendations := [] },
    expiresAt := 0 + HEALTH_PASS_EXPIRY_HOURS * 60 * 60 * 1000,
    lastAccessedAt := none, accessCount := 0 }

/-- exDB1 with the created pass appended. -/
def exDB1New : DB := { exDB1 with passes := [exPassOff, exCreatedPass] }

/-- Update payload carrying no changes at all. -/
def exUpdateDtoNone : UpdateHealthPassDto :=
  { appointmentDate := none, appointmentNotes := none, dataToggles := none }

/-- The forced-toggle pass after enabling medication item x. -/
def exPassExpUpdTog : HealthPass :=
  { exPassExpUpd with dataToggles := { exTogglesForced with specificMedications := some ["x"] } }

/-- The forced-toggle pass after a QR regeneration at instant 7. -/
def exPassExpUpdRegen : HealthPass :=
  { exPassExpUpd with accessCode := "rc", qrCode := "rq", expiresAt := 7 + HEALTH_PASS_EXPIRY_HOURS * 60 * 60 * 1000, status := .generated }

/-- The forced-toggle pass after a successful access at instant 5. -/
def exPassExpUpdAcc : HealthPass :=
  { exPassExpUpd with lastAccessedAt := some 5, status := .shared, accessCount := 4 }

/-- The pass invariant that the identity toggles name, gender and dateOfBirth
are stored as true. -/
def ReqTogglesTrue (p : HealthPass) : Prop :=
  p.dataToggles.name = true ∧ p.dataToggles.gender = true ∧
    p.dataToggles.dateOfBirth = true

/-- First medication payload (untrimmed, mixed case). -/
def exMedDto1 : CreateMedicationDto :=
  { medicationName := "Aspirin ", dosageAmount := "100mg", frequency := "daily", notes := none }

/-- Second medication payload with the same normalized key. -/
def exMedDto2 : CreateMedicationDto :=
  { medicationName := " aspirin", dosageAmount := "100MG", frequency := "daily", notes := none }

/-- Stored record of the first medication creation. -/
def exMedRec1 : Medication :=
  { id := "m1", userId := "u1", medicationName := "Aspirin", dosageAmount := "100mg", frequency := "daily", notes := none, isActive := true }

/-- Store after the first medication creation. -/
def exDBm1 : DB := { exDB0 with medications := [exMedRec1] }

/-- First allergy payload. -/
def exAllDto1 : CreateAllergyDto :=
  { allergen := " Peanuts", severity := "severe", notes := none }

/-- Second allergy payload with the same normalized key. -/
def exAllDto2 : CreateAllergyDto :=
  { allergen := "peanuts ", severity := "mild", notes := none }

/-- Stored record of the first allergy creation. -/
def exAllRec1 : Allergy :=
  { id := "a9", userId := "u1", allergen := "Peanuts", type := "food", severity := "severe", reaction := none, notes := none, isActive := true }

/-- Store after the first allergy creation. -/
def exDBa1 : DB := { exDB0 with allergies := [exAllRec1] }

/-- Preview rendered for the empty-spec pass of exDB7: both ID lists are
empty, yet every active medication and allergy of the owner appears. -/
def exPreviewSvc7 : HealthPassPreviewSvc :=
  { patientName := "User One", dateOfBirth := 0, gender := some "female",
    appointmentSpecialty := "cardiology", appointmentDate := none,
    appointmentNotes := none, aiRecommendations := none,
    medicalConditions := none,
    medications := some [{ id := "m1", medicationName := "Aspirin", dosageAmount := "100mg", frequency := "daily" }],
    allergies := some [{ id := "a1", allergen := "Peanuts", type := "food", severity := "severe" }],
    lifestyleChoices := none, documents := none }

theorem mem_of_mem_filter_map {α β : Type} {l : List α} {p : α → Bool}
    {f : α → β} {b : β} (h : b ∈ (l.filter p).map f) :
    ∃ a ∈ l, p a = true ∧ f a = b := by
  rcases List.mem_map.mp h with ⟨a, ha, hfa⟩
  rcases List.mem_filter.mp ha with ⟨hmem, hp⟩
  exact ⟨a, hmem, hp, hfa⟩

theorem generatePreview_active_subset (db : DB) (hp : HealthPass)
    (pv : HealthPassPreview) (h : generatePreview db hp = .ok pv) :
    PreviewItemsActiveFor db hp.userId pv := by
  unfold generatePreview at h
  split at h
  · exact absurd h (by simp)
  · rw [Except.ok.injEq] at h
    subst h
    refine ⟨?_, ?_, ?_, ?_, ?_⟩
    · intro item hitem
      simp only [conditionFindByUserId] at hitem
      split at hitem
      · simp at hitem
        obtain ⟨c, ⟨hmem, _hspec, huid, hact⟩, hfc⟩ := hitem
        exact ⟨c, hmem, hact, huid, by rw [← hfc]⟩
      · simp at hitem
    · intro item hitem
      simp only [medicationFindByUserId] at hitem
      split at hitem
      · simp at hitem
        obtain ⟨m, ⟨hmem, _hspec, huid, hact⟩, hfm⟩ := hitem
        exact ⟨m, hmem, hact, huid, by rw [← hfm]⟩
      · simp at hitem
    · intro item hitem
      simp only [allergyFindByUserId] at hitem
      split at hitem
      · simp at hitem
        obtain ⟨a, ⟨hmem, _hspec, huid, hact⟩, hfa⟩ := hitem
        exact ⟨a, hmem, hact, huid, by rw [← hfa]⟩
      · simp at hitem
    · intro item hitem
      simp only [lifestyleFindByUserId] at hitem
      split at hitem
      · simp at hitem
        obtain ⟨l, ⟨hmem, _hspec, huid, hact⟩, hfl⟩ := hitem
        exact ⟨l, hmem, hact, huid, by rw [← hfl]⟩
      · simp at hitem
    · intro item hitem
      simp only [documentFindByUserId] at hitem
      split at hitem
      · simp at hitem
        obtain ⟨d, ⟨hmem, _hspec, huid, hact⟩, hfd⟩ := hitem
        exact ⟨d, hmem, hact, huid, by rw [← hfd]⟩
      · simp at hitem

theorem updatePass_users (db : DB) (id : String) (f : HealthPass → HealthPass) :
    (updatePass db id f).users = db.users := rfl

theorem updatePass_conditions (db : DB) (id : String) (f : HealthPass → HealthPass) :
    (updatePass db id f).conditions = db.conditions := rfl

theorem updatePass_medications (db : DB) (id : String) (f : HealthPass → HealthPass) :
    (updatePass db id f).medications = db.medications := rfl

theorem updatePass_allergies (db : DB) (id : String) (f : HealthPass → HealthPass) :
    (updatePass db id f).allergies = db.allergies := rfl

theorem updatePass_lifestyles (db : DB) (id : String) (f : HealthPass → HealthPass) :
    (updatePass db id f).lifestyles = db.lifestyles := rfl

theorem updatePass_documents (db : DB) (id : String) (f : HealthPass → HealthPass) :
    (updatePass db id f).documents = db.documents := rfl

theorem previewItemsActiveFor_congr {db db' : DB} {ownerId : String}
    {pv : HealthPassPreview}
    (hc : db'.conditions = db.conditions) (hm : db'.medications = db.medications)
    (ha : db'.allergies = db.allergies) (hl : db'.lifestyles = db.lifestyles)
    (hd : db'.documents = db.documents)
    (h : PreviewItemsActiveFor db' ownerId pv) :
    PreviewItemsActiveFor db ownerId pv := by
  obtain ⟨h1, h2, h3, h4, h5⟩ := h
  refine ⟨?_, ?_, ?_, ?_, ?_⟩
  · intro item hitem; have := h1 item hitem; rwa [hc] at this
  · intro item hitem; have := h2 item hitem; rwa [hm] at this
  · intro item hitem; have := h3 item hitem; rwa [ha] at this
  · intro item hitem; have := h4 item hitem; rwa [hl] at this
  · intro item hitem; have := h5 item hitem; rwa [hd] at this

/-- C1: every item included in a rendered preview — directly via
generatePreview and equally via an AccessByCode render — belongs to a record
of the pass's owning user that is active in the store at render time; the
owner's active records are re-queried against the current store on every
render, so a record soft-deleted after pass creation never appears. -/
theorem preview_shows_only_currently_active_owner_records :
    (∀ (db : DB) (hp : HealthPass) (pv : HealthPassPreview),
        generatePreview db hp = .ok pv → PreviewItemsActiveFor db hp.userId pv) ∧
    (∀ (db : DB) (now : Nat) (code : String) (db' : DB) (pv : HealthPassPreview),
        findByAccessCode db now code = (db', .ok pv) →
        ∃ hp ∈ db.passes, hp.accessCode = code ∧
          PreviewItemsActiveFor db hp.userId pv) := by
  constructor
  · exact generatePreview_active_subset
  · intro db now code db' pv h
    unfold findByAccessCode at h
    split at h
    · exact absurd h (by simp)
    · rename_i hp hfind
      have hmem := List.mem_of_find?_eq_some hfind
      have hcode : hp.accessCode = code := by
        have := List.find?_some hfind
        rwa [beq_iff_eq] at this
      split at h
      · exact absurd h (by simp)
      · rw [Prod.mk.injEq] at h
        refine ⟨hp, hmem, hcode, ?_⟩
        exact previewItemsActiveFor_congr rfl rfl rfl rfl rfl
          (generatePreview_active_subset _ hp pv h.2)

/-- Witness for C1 at concrete inputs: the all-off pass renders against exDB1
and the expiring pass is accessed in exDB2 before its expiry. -/
theorem preview_shows_only_currently_active_owner_records_witness :
    PreviewItemsActiveFor exDB1 "u1" exPreviewOff ∧
    (∃ hp ∈ exDB2.passes, hp.accessCode = "c1" ∧
        PreviewItemsActiveFor exDB2 hp.userId exPreviewOff) := by
  constructor
  · exact preview_shows_only_currently_active_owner_records.1 exDB1 exPassOff
      exPreviewOff (by rfl)
  · exact preview_shows_only_currently_active_owner_records.2 exDB2 5 "c1"
      ({ exDB2 with passes := [{ exPassExp with
          lastAccessedAt := some 5
          status := .shared
          accessCount := 4 }] })
      exPreviewOff (by rfl)

/-- C2 (amended): an unknown access code fails NotFoundError with an
untouched store; a code whose pass is past expiry marks the pass expired and
fails NotFoundError — sharing the 404 status code of the unknown-code case
but carrying a distinct message, so the two failures are distinguishable in
the response body; an unexpired code sets the pass to shared, stamps
lastAccessedAt and increments accessCount by exactly one. -/
theorem access_by_code_cases :
    ∀ (db : DB) (now : Nat) (code : String),
      (db.passes.find? (fun p => p.accessCode == code) = none →
        findByAccessCode db now code =
          (db, .error (.notFound "Health pass not found"))) ∧
      (∀ hp, db.passes.find? (fun p => p.accessCode == code) = some hp →
        hp.expiresAt < now →
        (findByAccessCode db now code).2 =
          .error (.notFound "Health pass has expired") ∧
        (∃ p' ∈ (findByAccessCode db now code).1.passes,
            p'.id = hp.id ∧ p'.accessCode = hp.accessCode ∧
            p'.status = .expired) ∧
        (errorHandler (.notFound "Health pass has expired")).status = 404 ∧
        (errorHandler (.notFound "Health pass not found")).status = 404 ∧
        errorHandler (.notFound "Health pass has expired") ≠
          errorHandler (.notFound "Health pass not found")) ∧
      (∀ hp, db.passes.find? (fun p => p.accessCode == code) = some hp →
        ¬ hp.expiresAt < now →
        ∃ p' ∈ (findByAccessCode db now code).1.passes,
          p'.id = hp.id ∧ p'.status = .shared ∧ p'.lastAccessedAt = some now ∧
          p'.accessCount = hp.accessCount + 1) := by
  intro db now code
  refine ⟨?_, ?_, ?_⟩
  · intro h
    unfold findByAccessCode
    rw [h]
  · intro hp hfind hexp
    have hmem := List.mem_of_find?_eq_some hfind
    have hres : findByAccessCode db now code =
        (updatePass db hp.id (fun p => { p with status := .expired }),
         .error (.notFound "Health pass has expired")) := by
      simp only [findByAccessCode, hfind]
      rw [if_pos hexp]
    rw [hres]
    have hmm : ({ hp with status := .expired } : HealthPass) ∈
        (updatePass db hp.id (fun p => { p with status := .expired })).passes := by
      simp only [updatePass]
      exact List.mem_map.mpr ⟨hp, hmem, by simp⟩
    exact ⟨rfl, ⟨{ hp with status := .expired }, hmm, rfl, rfl, rfl⟩,
      rfl, rfl, by decide⟩
  · intro hp hfind hexp
    have hmem := List.mem_of_find?_eq_some hfind
    have hres : (findByAccessCode db now code).1 =
        updatePass db hp.id (fun p => { p with lastAccessedAt := some now, status := .shared, accessCount := p.accessCount + 1 }) := by
      simp only [findByAccessCode, hfind]
      rw [if_neg hexp]
    rw [hres]
    have hmm : ({ hp with lastAccessedAt := some now, status := .shared, accessCount := hp.accessCount + 1 } : HealthPass) ∈
        (updatePass db hp.id (fun p => { p with lastAccessedAt := some now, status := .shared, accessCount := p.accessCount + 1 })).passes := by
      simp only [updatePass]
      exact List.mem_map.mpr ⟨hp, hmem, by simp⟩
    exact ⟨{ hp with lastAccessedAt := some now, status := .shared, accessCount := hp.accessCount + 1 }, hmm, rfl, rfl, rfl, rfl⟩

/-- Witness for C2 (amended) at concrete inputs: the three cases exercised on
exDB2 (unknown code, access after expiry at instant 20, access before expiry
at instant 5). -/
theorem access_by_code_cases_witness :
    (findByAccessCode exDB2 20 "zz" =
      (exDB2, .error (.notFound "Health pass not found"))) ∧
    ((findByAccessCode exDB2 20 "c1").2 =
        .error (.notFound "Health pass has expired") ∧
      (∃ p' ∈ (findByAccessCode exDB2 20 "c1").1.passes,
          p'.id = exPassExp.id ∧ p'.accessCode = exPassExp.accessCode ∧
          p'.status = .expired) ∧
      (errorHandler (.notFound "Health pass has expired")).status = 404 ∧
      (errorHandler (.notFound "Health pass not found")).status = 404 ∧
      errorHandler (.notFound "Health pass has expired") ≠
        errorHandler (.notFound "Health pass not found")) ∧
    (∃ p' ∈ (findByAccessCode exDB2 5 "c1").1.passes,
        p'.id = exPassExp.id ∧ p'.status = .shared ∧
        p'.lastAccessedAt = some 5 ∧
        p'.accessCount = exPassExp.accessCount + 1) :=
  ⟨(access_by_code_cases exDB2 20 "zz").1 (by rfl),
   (access_by_code_cases exDB2 20 "c1").2.1 exPassExp (by rfl) (by decide),
   (access_by_code_cases exDB2 5 "c1").2.2 exPassExp (by rfl) (by decide)⟩

/-- C2 counterexample: with the expiring pass of exDB2 accessed at instant
20, the expired-pass failure and the unknown-code failure produce different
HTTP response bodies ("Health pass has expired" vs "Health pass not found"),
so the caller can tell an expired pass existed — the claimed
indistinguishability fails. -/
theorem access_by_code_expiry_distinguishable :
    (findByAccessCode exDB2 20 "c1").2 =
      .error (.notFound "Health pass has expired") ∧
    (findByAccessCode exDB2 20 "zz").2 =
      .error (.notFound "Health pass not found") ∧
    errorHandler (.notFound "Health pass has expired") ≠
      errorHandler (.notFound "Health pass not found") :=
  ⟨rfl, rfl, by decide⟩

theorem updatePass_mem_inv {db : DB} {id : String} {f : HealthPass → HealthPass}
    {p' : HealthPass} (h : p' ∈ (updatePass db id f).passes) :
    ∃ p ∈ db.passes, p' = (if p.id == id then f p else p) := by
  simp only [updatePass] at h
  rcases List.mem_map.mp h with ⟨p, hp, hg⟩
  exact ⟨p, hp, hg.symm⟩

theorem updatePass_mem_count_le {db : DB} {id : String}
    {f : HealthPass → HealthPass} {p' : HealthPass}
    (h : p' ∈ (updatePass db id f).passes) (hid : ∀ p, (f p).id = p.id)
    (hcount : ∀ p, p.accessCount ≤ (f p).accessCount) :
    ∃ p ∈ db.passes, p.id = p'.id ∧ p.accessCount ≤ p'.accessCount := by
  rcases updatePass_mem_inv h with ⟨p, hpmem, hpeq⟩
  subst hpeq
  by_cases hc : (p.id == id) = true
  · rw [if_pos hc]
    exact ⟨p, hpmem, (hid p).symm, hcount p⟩
  · rw [if_neg hc]
    exact ⟨p, hpmem, rfl, le_refl _⟩

theorem updatePass_mem_count_eq {db : DB} {id : String}
    {f : HealthPass → HealthPass} {p' : HealthPass}
    (h : p' ∈ (updatePass db id f).passes) (hid : ∀ p, (f p).id = p.id)
    (hcount : ∀ p, (f p).accessCount = p.accessCount) :
    ∃ p ∈ db.passes, p.id = p'.id ∧ p'.accessCount = p.accessCount := by
  rcases updatePass_mem_inv h with ⟨p, hpmem, hpeq⟩
  subst hpeq
  by_cases hc : (p.id == id) = true
  · rw [if_pos hc]
    exact ⟨p, hpmem, (hid p).symm, hcount p⟩
  · rw [if_neg hc]
    exact ⟨p, hpmem, rfl, rfl⟩

/-- C3 counterexample: the pass of exDB3 is already expired, yet
regenerateQrCode succeeds on it and sets its status back to generated (with a
fresh access code, QR image and expiry), so expired is not terminal over the
claimed operation set. -/
theorem expired_pass_resurrected_by_regenerate :
    exPassE.status = .expired ∧ exPassE ∈ exDB3.passes ∧
    regenerateQrCode exDB3 "p3" "nc" "nq" 50 = .ok (exDB3Regen, "nq") ∧
    exPassERegen ∈ exDB3Regen.passes ∧ exPassERegen.status = .generated :=
  ⟨rfl, by decide, by rfl, by decide, rfl⟩

/-- C3 (amended): accessCount never decreases under any of create, update,
toggleItem, regenerateQrCode and AccessByCode; once a pass's expiry instant
has passed, AccessByCode marks it expired and every later access with the
same code keeps failing not-found without resurrecting it; but expired is not
terminal across the whole operation set — regenerateQrCode sets any existing
pass, an expired one included, back to generated with a fresh code and
expiry. -/
theorem access_count_monotone_and_expired_behaviour :
    (∀ db userId dto ai ac qr nid sum now db' hpn,
        healthPassCreate db userId dto ai ac qr nid sum now = .ok (db', hpn) →
        ∀ p' ∈ db'.passes, p' ∈ db.passes ∨ p'.accessCount = 0) ∧
    (∀ db id dto db', healthPassUpdate db id dto = .ok db' →
        ∀ p' ∈ db'.passes, ∃ p ∈ db.passes,
          p.id = p'.id ∧ p'.accessCount = p.accessCount) ∧
    (∀ db id it itemId b db', toggleItem db id it itemId b = .ok db' →
        ∀ p' ∈ db'.passes, ∃ p ∈ db.passes,
          p.id = p'.id ∧ p'.accessCount = p.accessCount) ∧
    (∀ db id nc nq now db' s, regenerateQrCode db id nc nq now = .ok (db', s) →
        ∀ p' ∈ db'.passes, ∃ p ∈ db.passes,
          p.id = p'.id ∧ p'.accessCount = p.accessCount) ∧
    (∀ db now code, ∀ p' ∈ (findByAccessCode db now code).1.passes,
        ∃ p ∈ db.passes, p.id = p'.id ∧ p.accessCount ≤ p'.accessCount) ∧
    (∀ db now code hp,
        db.passes.find? (fun p => p.accessCode == code) = some hp →
        hp.expiresAt < now →
        (∀ p' ∈ (findByAccessCode db now code).1.passes,
            p'.id = hp.id → p'.status = .expired) ∧
        (∀ now', now ≤ now' →
          (findByAccessCode (findByAccessCode db now code).1 now' code).2 =
            .error (.notFound "Health pass has expired"))) ∧
    (∀ db id nc nq now db' s, regenerateQrCode db id nc nq now = .ok (db', s) →
        ∀ p' ∈ db'.passes, p'.id = id → p'.status = .generated) := by
  refine ⟨?_, ?_, ?_, ?_, ?_, ?_, ?_⟩
  · intro db userId dto ai ac qr nid sum now db' hpn h p' hp'
    unfold healthPassCreate at h
    split at h
    · exact absurd h (by simp)
    · rw [Except.ok.injEq, Prod.mk.injEq] at h
      obtain ⟨hdb, _⟩ := h
      subst hdb
      rcases List.mem_append.mp hp' with hL | hR
      · exact Or.inl hL
      · rw [List.mem_singleton] at hR
        subst hR
        exact Or.inr rfl
  · intro db id dto db' h p' hp'
    unfold healthPassUpdate at h
    split at h
    · rw [Except.ok.injEq] at h
      subst h
      exact updatePass_mem_count_eq hp' (fun p => rfl) (fun p => rfl)
    · exact absurd h (by simp)
  · intro db id it itemId b db' h p' hp'
    unfold toggleItem at h
    split at h
    · exact absurd h (by simp)
    · rw [Except.ok.injEq] at h
      subst h
      refine updatePass_mem_count_eq hp' (fun p => ?_) (fun p => ?_) <;>
        cases it <;> rfl
  · intro db id nc nq now db' s h p' hp'
    unfold regenerateQrCode at h
    split at h
    · rw [Except.ok.injEq, Prod.mk.injEq] at h
      obtain ⟨hdb, _⟩ := h
      subst hdb
      exact updatePass_mem_count_eq hp' (fun p => rfl) (fun p => rfl)
    · exact absurd h (by simp)
  · intro db now code p' hp'
    rcases hfind : db.passes.find? (fun p => p.accessCode == code) with _ | hp
    · have hdb : (findByAccessCode db now code).1 = db := by
        simp only [findByAccessCode, hfind]
      rw [hdb] at hp'
      exact ⟨p', hp', rfl, le_refl _⟩
    · by_cases hexp : hp.expiresAt < now
      · have hdb : (findByAccessCode db now code).1 =
            updatePass db hp.id (fun p => { p with status := .expired }) := by
          simp only [findByAccessCode, hfind]
          rw [if_pos hexp]
        rw [hdb] at hp'
        exact updatePass_mem_count_le hp' (fun p => rfl) (fun p => le_refl _)
      · have hdb : (findByAccessCode db now code).1 =
            updatePass db hp.id (fun p => { p with lastAccessedAt := some now, status := .shared, accessCount := p.accessCount + 1 }) := by
          simp only [findByAccessCode, hfind]
          rw [if_neg hexp]
        rw [hdb] at hp'
        exact updatePass_mem_count_le hp' (fun p => rfl)
          (fun p => Nat.le_succ _)
  · intro db now code hp hfind hexp
    have hdb : (findByAccessCode db now code).1 =
        updatePass db hp.id (fun p => { p with status := .expired }) := by
      simp only [findByAccessCode, hfind]
      rw [if_pos hexp]
    constructor
    · intro p' hp' hid
      rw [hdb] at hp'
      rcases updatePass_mem_inv hp' with ⟨p, hpmem, hpeq⟩
      by_cases hc : (p.id == hp.id) = true
      · rw [if_pos hc] at hpeq
        subst hpeq
        rfl
      · rw [if_neg hc] at hpeq
        subst hpeq
        exact absurd (beq_iff_eq.mpr hid) hc
    · intro now' hle
      have hgacc : ∀ p : HealthPass,
          ((fun p => if p.id == hp.id then { p with status := HealthPassStatus.expired } else p) p).accessCode = p.accessCode := by
        intro p
        dsimp only
        by_cases hc : (p.id == hp.id) = true
        · rw [if_pos hc]
        · rw [if_neg hc]
      have hfind1 : (updatePass db hp.id (fun p => { p with status := .expired })).passes.find? (fun p => p.accessCode == code) =
          some ({ hp with status := .expired }) := by
        simp only [updatePass]
        rw [List.find?_map]
        have hpred : ((fun p : HealthPass => p.accessCode == code) ∘
            (fun p => if p.id == hp.id then { p with status := HealthPassStatus.expired } else p)) =
            (fun p : HealthPass => p.accessCode == code) := by
          funext p
          simp only [Function.comp]
          rw [hgacc p]
        rw [hpred, hfind]
        simp
      rw [hdb]
      have hexp' : ({ hp with status := HealthPassStatus.expired } : HealthPass).expiresAt < now' :=
        lt_of_lt_of_le hexp hle
      simp only [findByAccessCode, hfind1]
      rw [if_pos hexp']
  · intro db id nc nq now db' s h p' hp' hid
    unfold regenerateQrCode at h
    split at h
    · rw [Except.ok.injEq, Prod.mk.injEq] at h
      obtain ⟨hdb, _⟩ := h
      subst hdb
      rcases updatePass_mem_inv hp' with ⟨p, hpmem, hpeq⟩
      by_cases hc : (p.id == id) = true
      · rw [if_pos hc] at hpeq
        subst hpeq
        rfl
      · rw [if_neg hc] at hpeq
        subst hpeq
        exact absurd (beq_iff_eq.mpr hid) hc
    · exact absurd h (by simp)

/-- Witness for C3 (amended): each conjunct applied at concrete inputs — a
creation on exDB1, the all-off update on exDB2, an item disable on exDB6, the
regeneration of the expired pass of exDB3, a fresh access and an
expired-then-repeated access on exDB2. -/
theorem access_count_monotone_and_expired_behaviour_witness :
    (exCreatedPass ∈ exDB1.passes ∨ exCreatedPass.accessCount = 0) ∧
    (∃ p ∈ exDB2.passes, p.id = exPassExpUpd.id ∧
        exPassExpUpd.accessCount = p.accessCount) ∧
    (∃ p ∈ exDB6.passes, p.id = exPassTDel.id ∧
        exPassTDel.accessCount = p.accessCount) ∧
    (∃ p ∈ exDB3.passes, p.id = exPassERegen.id ∧
        exPassERegen.accessCount = p.accessCount) ∧
    (∃ p ∈ exDB2.passes, p.id = exPassExpAccessed.id ∧
        p.accessCount ≤ exPassExpAccessed.accessCount) ∧
    exPassExpExpired.status = .expired ∧
    (findByAccessCode (findByAccessCode exDB2 20 "c1").1 30 "c1").2 =
      .error (.notFound "Health pass has expired") ∧
    exPassERegen.status = .generated :=
  ⟨(access_count_monotone_and_expired_behaviour.1 exDB1 "u1" exCreateDto
      exAiEmpty "ac" "qr" "np" "sum" 0 exDB1New exCreatedPass (by rfl))
      exCreatedPass (by decide),
   (access_count_monotone_and_expired_behaviour.2.1 exDB2 "p1"
      exUpdateDtoAllOff exDB2Upd (by rfl)) exPassExpUpd (by decide),
   (access_count_monotone_and_expired_behaviour.2.2.1 exDB6 "p6"
      ItemType.medicalCondition "b" false exDB6Del (by rfl)) exPassTDel (by decide),
   (access_count_monotone_and_expired_behaviour.2.2.2.1 exDB3 "p3" "nc" "nq"
      50 exDB3Regen "nq" (by rfl)) exPassERegen (by decide),
   (access_count_monotone_and_expired_behaviour.2.2.2.2.1 exDB2 5 "c1")
      exPassExpAccessed (by decide),
   ((access_count_monotone_and_expired_behaviour.2.2.2.2.2.1 exDB2 20 "c1"
      exPassExp (by rfl) (by decide)).1 exPassExpExpired (by decide) (by rfl)),
   ((access_count_monotone_and_expired_behaviour.2.2.2.2.2.1 exDB2 20 "c1"
      exPassExp (by rfl) (by decide)).2 30 (by decide)),
   (access_count_monotone_and_expired_behaviour.2.2.2.2.2.2 exDB3 "p3" "nc"
      "nq" 50 exDB3Regen "nq" (by rfl)) exPassERegen (by decide) (by rfl)⟩

/-- C4 evidence: the user of exDB5 has exactly one active medication on file,
judged not relevant by the collaborator; the profile-summary input that
create assembles marks the medications category "None on file" — create
passes no totalCounts, so the formatter cannot emit the
on-file-but-not-shared marking it produces when a positive total is
supplied. -/
theorem profile_summary_input_conflates_hidden_with_empty :
    (medicationFindByUserId exDB5 "u1").length = 1 ∧
    (createProfileSummaryInputs exDB5 "u1" "cardiology"
        exAiMedNotRelevant).medicationsStatus = "None on file" ∧
    formatCategoryStatus "cardiology" ([] : List Medication) (some 1)
      (fun m => "- " ++ m.medicationName ++ " " ++ m.dosageAmount ++ " "
        ++ m.frequency) "medications" =
      "None shared for this cardiology appointment (1 on file, not relevant to this specialty)" :=
  ⟨rfl, by decide, by decide⟩

theorem updatePass_forall {db : DB} {id : String} {f : HealthPass → HealthPass}
    (P : HealthPass → Prop) (hf : ∀ p ∈ db.passes, P (f p))
    (hkeep : ∀ p ∈ db.passes, P p) :
    ∀ p' ∈ (updatePass db id f).passes, P p' := by
  intro p' h
  rcases updatePass_mem_inv h with ⟨p, hpmem, hpeq⟩
  subst hpeq
  by_cases hc : (p.id == id) = true
  · rw [if_pos hc]
    exact hf p hpmem
  · rw [if_neg hc]
    exact hkeep p hpmem

/-- C5: the identity toggles name, gender and dateOfBirth are true on every
freshly created pass; an update whose payload carries a dataToggles object —
even one attempting to clear them — stores them as true on the targeted pass;
and every operation (update, toggleItem, regenerateQrCode, AccessByCode)
preserves the invariant that they are stored true, so they are permanently
true over the pass's lifetime. -/
theorem identity_toggles_always_true :
    (∀ db userId dto ai ac qr nid sum now db' hpn,
        healthPassCreate db userId dto ai ac qr nid sum now = .ok (db', hpn) →
        ReqTogglesTrue hpn) ∧
    (∀ db id dto db', healthPassUpdate db id dto = .ok db' →
        dto.dataToggles ≠ none →
        ∀ p' ∈ db'.passes, p'.id = id → ReqTogglesTrue p') ∧
    (∀ db id dto db', healthPassUpdate db id dto = .ok db' →
        (∀ p ∈ db.passes, ReqTogglesTrue p) →
        ∀ p' ∈ db'.passes, ReqTogglesTrue p') ∧
    (∀ db id it itemId b db', toggleItem db id it itemId b = .ok db' →
        (∀ p ∈ db.passes, ReqTogglesTrue p) →
        ∀ p' ∈ db'.passes, ReqTogglesTrue p') ∧
    (∀ db id nc nq now db' s, regenerateQrCode db id nc nq now = .ok (db', s) →
        (∀ p ∈ db.passes, ReqTogglesTrue p) →
        ∀ p' ∈ db'.passes, ReqTogglesTrue p') ∧
    (∀ db now code, (∀ p ∈ db.passes, ReqTogglesTrue p) →
        ∀ p' ∈ (findByAccessCode db now code).1.passes, ReqTogglesTrue p') := by
  refine ⟨?_, ?_, ?_, ?_, ?_, ?_⟩
  · intro db userId dto ai ac qr nid sum now db' hpn h
    unfold healthPassCreate at h
    split at h
    · exact absurd h (by simp)
    · rw [Except.ok.injEq, Prod.mk.injEq] at h
      obtain ⟨_, hhp⟩ := h
      subst hhp
      exact ⟨rfl, rfl, rfl⟩
  · intro db id dto db' h hne p' hp' hid
    rcases hdt : dto.dataToggles with _ | t
    · exact absurd hdt hne
    · unfold healthPassUpdate at h
      split at h
      · rw [Except.ok.injEq] at h
        subst h
        rcases updatePass_mem_inv hp' with ⟨p, hpmem, hpeq⟩
        by_cases hc : (p.id == id) = true
        · rw [if_pos hc] at hpeq
          subst hpeq
          refine ⟨?_, ?_, ?_⟩ <;> simp [hdt]
        · rw [if_neg hc] at hpeq
          subst hpeq
          exact absurd (beq_iff_eq.mpr hid) hc
      · exact absurd h (by simp)
  · intro db id dto db' h hinv
    unfold healthPassUpdate at h
    split at h
    · rw [Except.ok.injEq] at h
      subst h
      refine updatePass_forall ReqTogglesTrue (fun p hp => ?_) hinv
      rcases hdt : dto.dataToggles with _ | t
      · obtain ⟨h1, h2, h3⟩ := hinv p hp
        refine ⟨?_, ?_, ?_⟩ <;> simp [hdt] <;> assumption
      · refine ⟨?_, ?_, ?_⟩ <;> simp [hdt]
    · exact absurd h (by simp)
  · intro db id it itemId b db' h hinv
    unfold toggleItem at h
    split at h
    · exact absurd h (by simp)
    · rw [Except.ok.injEq] at h
      subst h
      refine updatePass_forall ReqTogglesTrue (fun p hp => ?_) hinv
      obtain ⟨h1, h2, h3⟩ := hinv p hp
      cases it <;> exact ⟨h1, h2, h3⟩
  · intro db id nc nq now db' s h hinv
    unfold regenerateQrCode at h
    split at h
    · rw [Except.ok.injEq, Prod.mk.injEq] at h
      obtain ⟨hdb, _⟩ := h
      subst hdb
      exact updatePass_forall ReqTogglesTrue (fun p hp => hinv p hp) hinv
    · exact absurd h (by simp)
  · intro db now code hinv
    rcases hfind : db.passes.find? (fun p => p.accessCode == code) with _ | hp
    · have hdb : (findByAccessCode db now code).1 = db := by
        simp only [findByAccessCode, hfind]
      rw [hdb]
      exact hinv
    · by_cases hexp : hp.expiresAt < now
      · have hdb : (findByAccessCode db now code).1 =
            updatePass db hp.id (fun p => { p with status := .expired }) := by
          simp only [findByAccessCode, hfind]
          rw [if_pos hexp]
        rw [hdb]
        exact updatePass_forall ReqTogglesTrue (fun p hp => hinv p hp) hinv
      · have hdb : (findByAccessCode db now code).1 =
            updatePass db hp.id (fun p => { p with lastAccessedAt := some now, status := .shared, accessCount := p.accessCount + 1 }) := by
          simp only [findByAccessCode, hfind]
          rw [if_neg hexp]
        rw [hdb]
        exact updatePass_forall ReqTogglesTrue (fun p hp => hinv p hp) hinv

/-- Witness for C5 at concrete inputs: a creation on exDB1, the
all-toggles-off update payload applied to exDB2, a no-op update, an item
toggle, a QR regeneration and an access on the forced-toggle store. -/
theorem identity_toggles_always_true_witness :
    ReqTogglesTrue exCreatedPass ∧
    ReqTogglesTrue exPassExpUpd ∧
    ReqTogglesTrue exPassExpUpdTog ∧
    ReqTogglesTrue exPassExpUpdRegen ∧
    ReqTogglesTrue exPassExpUpdAcc :=
  ⟨identity_toggles_always_true.1 exDB1 "u1" exCreateDto exAiEmpty "ac" "qr"
      "np" "sum" 0 exDB1New exCreatedPass (by rfl),
   identity_toggles_always_true.2.1 exDB2 "p1" exUpdateDtoAllOff exDB2Upd
      (by rfl) (by decide) exPassExpUpd (by decide) (by rfl),
   identity_toggles_always_true.2.2.2.1 exDB2Upd "p1" ItemType.medication "x"
      true { exDB2Upd with passes := [exPassExpUpdTog] } (by rfl)
      (by
      intro p hp
      have hp1 : p = exPassExpUpd := by
        have h2 : p ∈ [exPassExpUpd] := hp
        simpa using h2
      subst hp1
      exact ⟨rfl, rfl, rfl⟩) exPassExpUpdTog (by decide),
   identity_toggles_always_true.2.2.2.2.1 exDB2Upd "p1" "rc" "rq" 7
      { exDB2Upd with passes := [exPassExpUpdRegen] } "rq" (by rfl)
      (by
      intro p hp
      have hp1 : p = exPassExpUpd := by
        have h2 : p ∈ [exPassExpUpd] := hp
        simpa using h2
      subst hp1
      exact ⟨rfl, rfl, rfl⟩) exPassExpUpdRegen (by decide),
   identity_toggles_always_true.2.2.2.2.2 exDB2Upd 5 "c1" (by
      intro p hp
      have hp1 : p = exPassExpUpd := by
        have h2 : p ∈ [exPassExpUpd] := hp
        simpa using h2
      subst hp1
      exact ⟨rfl, rfl, rfl⟩)
      exPassExpUpdAcc (by decide)⟩

theorem togglesField_set_self (t : SharedDataToggles) (it : ItemType)
    (l : List String) : togglesField (setTogglesField t it l) it = some l := by
  cases it <;> rfl

theorem togglesField_set_ne (t : SharedDataToggles) (it it' : ItemType)
    (l : List String) (h : it' ≠ it) :
    togglesField (setTogglesField t it l) it' = togglesField t it' := by
  cases it <;> cases it' <;> first | rfl | exact absurd rfl h

theorem find?_updatePass_id (db : DB) (id : String)
    (f : HealthPass → HealthPass) (hid : ∀ p, (f p).id = p.id) :
    (updatePass db id f).passes.find? (fun p => p.id == id) =
      (db.passes.find? (fun p => p.id == id)).map
        (fun p => if p.id == id then f p else p) := by
  simp only [updatePass]
  rw [List.find?_map]
  have hpred : ((fun p : HealthPass => p.id == id) ∘
      fun p => if p.id == id then f p else p) =
      (fun p : HealthPass => p.id == id) := by
    funext p
    simp only [Function.comp]
    by_cases hc : (p.id == id) = true
    · rw [if_pos hc, hid p]
    · rw [if_neg hc]
  rw [hpred]

/-- C6: toggleItem is an idempotent add/remove on the addressed category's
specific-ID list (enabling a present item and disabling an absent item leave
the membership unchanged; disable-then-enable of a present item restores the
original membership); it changes no other category's list, does not alter the
stored AI recommendation snapshot, and fails NotFoundError when the pass does
not exist. -/
theorem toggle_item_idempotent_and_local :
    ∀ (db : DB) (id : String) (it : ItemType) (itemId : String),
      (∀ b, db.passes.find? (fun p => p.id == id) = none →
        toggleItem db id it itemId b =
          .error (.notFound "Health pass not found")) ∧
      (∀ hp, db.passes.find? (fun p => p.id == id) = some hp →
        (itemId ∈ (togglesField hp.dataToggles it).getD [] →
          ∃ db', toggleItem db id it itemId true = .ok db' ∧
            ∀ p' ∈ db'.passes, p'.id = id →
              togglesField p'.dataToggles it =
                some ((togglesField hp.dataToggles it).getD [])) ∧
        (itemId ∉ (togglesField hp.dataToggles it).getD [] →
          ∃ db', toggleItem db id it itemId false = .ok db' ∧
            ∀ p' ∈ db'.passes, p'.id = id →
              togglesField p'.dataToggles it =
                some ((togglesField hp.dataToggles it).getD [])) ∧
        (itemId ∈ (togglesField hp.dataToggles it).getD [] →
          ∀ db₁ db₂, toggleItem db id it itemId false = .ok db₁ →
            toggleItem db₁ id it itemId true = .ok db₂ →
            ∀ p' ∈ db₂.passes, p'.id = id →
              ∃ L, togglesField p'.dataToggles it = some L ∧
                ∀ x, x ∈ L ↔ x ∈ (togglesField hp.dataToggles it).getD [])) ∧
      (∀ b db', toggleItem db id it itemId b = .ok db' →
        ∀ p' ∈ db'.passes, ∃ p ∈ db.passes, p.id = p'.id ∧
          p'.aiItemRecommendations = p.aiItemRecommendations ∧
          p'.accessCode = p.accessCode ∧
          ∀ it', it' ≠ it → togglesField p'.dataToggles it' =
            togglesField p.dataToggles it') := by
  intro db id it itemId
  refine ⟨?_, ?_, ?_⟩
  · intro b h
    unfold toggleItem
    rw [h]
  · intro hp hfind
    have hpid : (hp.id == id) = true := by simpa using List.find?_some hfind
    refine ⟨?_, ?_, ?_⟩
    · intro hmem
      have hcont : ((togglesField hp.dataToggles it).getD []).contains itemId = true :=
        List.elem_eq_true_of_mem hmem
      have heq : toggleItem db id it itemId true =
          .ok (updatePass db id (fun p =>
            { p with dataToggles := setTogglesField p.dataToggles it ((togglesField hp.dataToggles it).getD []) })) := by
        simp only [toggleItem, hfind, hcont, if_true]
      refine ⟨_, heq, ?_⟩
      intro p' hp' hid'
      rcases updatePass_mem_inv hp' with ⟨p, hpmem, hpeq⟩
      by_cases hc : (p.id == id) = true
      · rw [if_pos hc] at hpeq
        subst hpeq
        exact togglesField_set_self _ _ _
      · rw [if_neg hc] at hpeq
        subst hpeq
        exact absurd (beq_iff_eq.mpr hid') hc
    · intro hnot
      have hfil : ((togglesField hp.dataToggles it).getD []).filter
          (fun x => x != itemId) = (togglesField hp.dataToggles it).getD [] := by
        apply List.filter_eq_self.mpr
        intro x hx
        simp only [bne_iff_ne, ne_eq, decide_eq_true_eq]
        exact fun he => hnot (he ▸ hx)
      have heq : toggleItem db id it itemId false =
          .ok (updatePass db id (fun p =>
            { p with dataToggles := setTogglesField p.dataToggles it ((togglesField hp.dataToggles it).getD []) })) := by
        simp only [toggleItem, hfind, hfil, Bool.false_eq_true, if_false]
      refine ⟨_, heq, ?_⟩
      intro p' hp' hid'
      rcases updatePass_mem_inv hp' with ⟨p, hpmem, hpeq⟩
      by_cases hc : (p.id == id) = true
      · rw [if_pos hc] at hpeq
        subst hpeq
        exact togglesField_set_self _ _ _
      · rw [if_neg hc] at hpeq
        subst hpeq
        exact absurd (beq_iff_eq.mpr hid') hc
    · intro hmem db₁ db₂ h₁ h₂ p' hp' hid'
      simp only [toggleItem, hfind, Bool.false_eq_true, if_false] at h₁
      rw [Except.ok.injEq] at h₁
      subst h₁
      have hfind1 := find?_updatePass_id db id
        (fun p => { p with dataToggles := setTogglesField p.dataToggles it (List.filter (fun x => x != itemId) ((togglesField hp.dataToggles it).getD [])) })
        (fun p => rfl)
      rw [hfind] at hfind1
      simp only [Option.map_some'] at hfind1
      rw [if_pos hpid] at hfind1
      have hnotin : itemId ∉ List.filter (fun x => x != itemId)
          ((togglesField hp.dataToggles it).getD []) := by
        intro hxin
        rcases List.mem_filter.mp hxin with ⟨_, hbne⟩
        simp at hbne
      have hcont2 : (List.filter (fun x => x != itemId)
          ((togglesField hp.dataToggles it).getD [])).contains itemId = false := by
        simpa using hnotin
      simp only [toggleItem, hfind1, togglesField_set_self, Option.getD_some,
        hcont2, Bool.false_eq_true, if_false, if_true] at h₂
      rw [Except.ok.injEq] at h₂
      subst h₂
      rcases updatePass_mem_inv hp' with ⟨p, hpmem, hpeq⟩
      by_cases hc : (p.id == id) = true
      · rw [if_pos hc] at hpeq
        subst hpeq
        refine ⟨_, togglesField_set_self _ _ _, ?_⟩
        intro x
        constructor
        · intro hx
          rcases List.mem_append.mp hx with hL | hR
          · exact (List.mem_filter.mp hL).1
          · rw [List.mem_singleton] at hR
            subst hR
            exact hmem
        · intro hx
          by_cases hxe : x = itemId
          · subst hxe
            exact List.mem_append.mpr (Or.inr (List.mem_singleton.mpr rfl))
          · refine List.mem_append.mpr (Or.inl (List.mem_filter.mpr ⟨hx, ?_⟩))
            simp only [bne_iff_ne, ne_eq, decide_eq_true_eq]
            exact hxe
      · rw [if_neg hc] at hpeq
        subst hpeq
        exact absurd (beq_iff_eq.mpr hid') hc
  · intro b db' h p' hp'
    unfold toggleItem at h
    split at h
    · exact absurd h (by simp)
    · rw [Except.ok.injEq] at h
      subst h
      rcases updatePass_mem_inv hp' with ⟨p, hpmem, hpeq⟩
      by_cases hc : (p.id == id) = true
      · rw [if_pos hc] at hpeq
        subst hpeq
        exact ⟨p, hpmem, rfl, rfl, rfl,
          fun it' hne => togglesField_set_ne _ _ _ _ hne⟩
      · rw [if_neg hc] at hpeq
        rw [hpeq]
        exact ⟨p, hpmem, rfl, rfl, rfl, fun it' hne => rfl⟩

/-- Witness for C6 at concrete inputs: the two-condition pass of exDB6 (list
a,b) exercised with an enable of a present item, a disable of an absent item,
a disable-enable round trip on item b, the locality clause, and a lookup of a
nonexistent pass id. -/
theorem toggle_item_idempotent_and_local_witness :
    toggleItem exDB6 "zz" ItemType.medicalCondition "a" true =
      .error (.notFound "Health pass not found") ∧
    (∃ db', toggleItem exDB6 "p6" ItemType.medicalCondition "a" true =
        .ok db' ∧
      ∀ p' ∈ db'.passes, p'.id = "p6" →
        togglesField p'.dataToggles ItemType.medicalCondition =
          some ["a", "b"]) ∧
    (∃ db', toggleItem exDB6 "p6" ItemType.medicalCondition "z" false =
        .ok db' ∧
      ∀ p' ∈ db'.passes, p'.id = "p6" →
        togglesField p'.dataToggles ItemType.medicalCondition =
          some ["a", "b"]) ∧
    (∃ L, togglesField exPassT.dataToggles ItemType.medicalCondition =
        some L ∧ ∀ x, x ∈ L ↔ x ∈ ["a", "b"]) ∧
    (∃ p ∈ exDB6.passes, p.id = exPassT.id ∧
      exPassT.aiItemRecommendations = p.aiItemRecommendations ∧
      exPassT.accessCode = p.accessCode ∧
      ∀ it', it' ≠ ItemType.medicalCondition →
        togglesField exPassT.dataToggles it' = togglesField p.dataToggles it') :=
  ⟨(toggle_item_idempotent_and_local exDB6 "zz" ItemType.medicalCondition
      "a").1 true (by rfl),
   ((toggle_item_idempotent_and_local exDB6 "p6" ItemType.medicalCondition
      "a").2.1 exPassT (by rfl)).1 (by decide),
   ((toggle_item_idempotent_and_local exDB6 "p6" ItemType.medicalCondition
      "z").2.1 exPassT (by rfl)).2.1 (by decide),
   ((toggle_item_idempotent_and_local exDB6 "p6" ItemType.medicalCondition
      "b").2.1 exPassT (by rfl)).2.2 (by decide) exDB6Del exDB6 (by rfl)
      (by rfl) exPassT (by decide) (by rfl),
   (toggle_item_idempotent_and_local exDB6 "p6" ItemType.medicalCondition
      "a").2.2 true exDB6 (by rfl) exPassT (by decide)⟩

/-- C7: for the same user, creating a second record whose normalized
(trimmed, case-insensitive) domain key equals a still-active first record's
key fails with ConflictError (medication: name plus dosage; allergy:
allergen); after soft-deleting the first record, creating the same key again
succeeds. -/
theorem duplicate_key_lifecycle :
    (∀ (db : DB) (u : String) (dto1 dto2 : CreateMedicationDto)
        (id1 id2 id3 : String) (db1 : DB) (r : Medication),
      strToLower (strTrim dto1.medicationName) = strToLower (strTrim dto2.medicationName) →
      strToLower (strTrim dto1.dosageAmount) = strToLower (strTrim dto2.dosageAmount) →
      medicationCreate db u dto1 id1 = .ok (db1, r) →
      (∃ msg, medicationCreate db1 u dto2 id2 = .error (.conflict msg)) ∧
      ∃ db2, medicationDelete db1 r.id = .ok db2 ∧
        ∃ db3 r3, medicationCreate db2 u dto2 id3 = .ok (db3, r3)) ∧
    (∀ (db : DB) (u : String) (dto1 dto2 : CreateAllergyDto)
        (ty1 ty2 id1 id2 id3 : String) (db1 : DB) (r : Allergy),
      strToLower (strTrim dto1.allergen) = strToLower (strTrim dto2.allergen) →
      allergyCreate db u dto1 ty1 id1 = .ok (db1, r) →
      (∃ msg, allergyCreate db1 u dto2 ty2 id2 = .error (.conflict msg)) ∧
      ∃ db2, allergyDelete db1 r.id = .ok db2 ∧
        ∃ db3 r3, allergyCreate db2 u dto2 ty2 id3 = .ok (db3, r3)) := by
  constructor
  · intro db u dto1 dto2 id1 id2 id3 db1 r hname hdos h
    unfold medicationCreate at h
    split at h
    · exact absurd h (by simp)
    · rename_i hcheck
      rw [Except.ok.injEq, Prod.mk.injEq] at h
      obtain ⟨hdb, hr⟩ := h
      have hany : db.medications.any (fun m =>
          m.userId == u && ciMatch m.medicationName dto1.medicationName
            && ciMatch m.dosageAmount dto1.dosageAmount && m.isActive) = false := by
        rw [Bool.not_eq_true] at hcheck
        exact hcheck
      have hmed : db1.medications = db.medications ++ [r] := by
        rw [← hdb, ← hr]
      have hruid : r.userId = u := by rw [← hr]
      have hrname : r.medicationName = strTrim dto1.medicationName := by rw [← hr]
      have hrdos : r.dosageAmount = strTrim dto1.dosageAmount := by rw [← hr]
      have hract : r.isActive = true := by rw [← hr]
      have hanyEq : ∀ m : Medication,
          (m.userId == u && ciMatch m.medicationName dto2.medicationName
            && ciMatch m.dosageAmount dto2.dosageAmount && m.isActive) =
          (m.userId == u && ciMatch m.medicationName dto1.medicationName
            && ciMatch m.dosageAmount dto1.dosageAmount && m.isActive) := by
        intro m
        simp only [ciMatch, hname, hdos]
      have hrmem : r ∈ db1.medications := by
        rw [hmed]
        exact List.mem_append.mpr (Or.inr (List.mem_singleton.mpr rfl))
      refine ⟨⟨"You already have \"" ++ dto2.medicationName ++ " " ++ dto2.dosageAmount ++ "\" in your medications", ?_⟩, ?_⟩
      · have hany2 : db1.medications.any (fun m =>
            m.userId == u && ciMatch m.medicationName dto2.medicationName
              && ciMatch m.dosageAmount dto2.dosageAmount && m.isActive) = true := by
          apply List.any_eq_true.mpr
          refine ⟨r, hrmem, ?_⟩
          simp [ciMatch, hruid, hrname, hrdos, hract, hname, hdos]
        unfold medicationCreate
        rw [if_pos hany2]
      · have hany3 : db1.medications.any (fun m => m.id == r.id) = true := by
          apply List.any_eq_true.mpr
          exact ⟨r, hrmem, by simp⟩
        have hdel : medicationDelete db1 r.id = .ok { db1 with medications := db1.medications.map (fun m => if m.id == r.id then { m with isActive := false } else m) } := by
          unfold medicationDelete
          rw [if_pos hany3]
        refine ⟨_, hdel, ?_⟩
        have hany4 : (db1.medications.map (fun m =>
            if m.id == r.id then { m with isActive := false } else m)).any (fun m =>
            m.userId == u && ciMatch m.medicationName dto2.medicationName
              && ciMatch m.dosageAmount dto2.dosageAmount && m.isActive) = false := by
          rw [List.any_map, hmed]
          apply List.any_eq_false.mpr
          intro m hm
          rcases List.mem_append.mp hm with hL | hR
          · simp only [Function.comp]
            by_cases hc : (m.id == r.id) = true
            · rw [if_pos hc]
              simp
            · rw [if_neg hc]
              rw [hanyEq m]
              have := List.any_eq_false.mp hany m hL
              simpa using this
          · rw [List.mem_singleton] at hR
            subst hR
            simp only [Function.comp]
            simp
        exact ⟨_, _, by
          unfold medicationCreate
          rw [if_neg (by rw [hany4]; exact Bool.false_ne_true)]⟩
  · intro db u dto1 dto2 ty1 ty2 id1 id2 id3 db1 r hname h
    unfold allergyCreate at h
    split at h
    · exact absurd h (by simp)
    · rename_i hcheck
      rw [Except.ok.injEq, Prod.mk.injEq] at h
      obtain ⟨hdb, hr⟩ := h
      have hany : db.allergies.any (fun a =>
          a.userId == u && ciMatch a.allergen dto1.allergen && a.isActive) = false := by
        rw [Bool.not_eq_true] at hcheck
        exact hcheck
      have hmed : db1.allergies = db.allergies ++ [r] := by
        rw [← hdb, ← hr]
      have hruid : r.userId = u := by rw [← hr]
      have hrname : r.allergen = strTrim dto1.allergen := by rw [← hr]
      have hract : r.isActive = true := by rw [← hr]
      have hanyEq : ∀ a : Allergy,
          (a.userId == u && ciMatch a.allergen dto2.allergen && a.isActive) =
          (a.userId == u && ciMatch a.allergen dto1.allergen && a.isActive) := by
        intro a
        simp only [ciMatch, hname]
      have hrmem : r ∈ db1.allergies := by
        rw [hmed]
        exact List.mem_append.mpr (Or.inr (List.mem_singleton.mpr rfl))
      refine ⟨⟨"You already have \"" ++ dto2.allergen ++ "\" in your allergies", ?_⟩, ?_⟩
      · have hany2 : db1.allergies.any (fun a =>
            a.userId == u && ciMatch a.allergen dto2.allergen && a.isActive) = true := by
          apply List.any_eq_true.mpr
          refine ⟨r, hrmem, ?_⟩
          simp [ciMatch, hruid, hrname, hract, hname]
        unfold allergyCreate
        rw [if_pos hany2]
      · have hany3 : db1.allergies.any (fun a => a.id == r.id) = true := by
          apply List.any_eq_true.mpr
          exact ⟨r, hrmem, by simp⟩
        have hdel : allergyDelete db1 r.id = .ok { db1 with allergies := db1.allergies.map (fun a => if a.id == r.id then { a with isActive := false } else a) } := by
          unfold allergyDelete
          rw [if_pos hany3]
        refine ⟨_, hdel, ?_⟩
        have hany4 : (db1.allergies.map (fun a =>
            if a.id == r.id then { a with isActive := false } else a)).any (fun a =>
            a.userId == u && ciMatch a.allergen dto2.allergen && a.isActive) = false := by
          rw [List.any_map, hmed]
          apply List.any_eq_false.mpr
          intro a ha
          rcases List.mem_append.mp ha with hL | hR
          · simp only [Function.comp]
            by_cases hc : (a.id == r.id) = true
            · rw [if_pos hc]
              simp
            · rw [if_neg hc]
              rw [hanyEq a]
              have := List.any_eq_false.mp hany a hL
              simpa using this
          · rw [List.mem_singleton] at hR
            subst hR
            simp only [Function.comp]
            simp
        exact ⟨_, _, by
          unfold allergyCreate
          rw [if_neg (by rw [hany4]; exact Bool.false_ne_true)]⟩

/-- Witness for C7 at concrete inputs: Aspirin 100mg created twice with
different spacing and casing, and Peanuts likewise, on an empty store. -/
theorem duplicate_key_lifecycle_witness :
    ((∃ msg, medicationCreate exDBm1 "u1" exMedDto2 "m2" =
        .error (.conflict msg)) ∧
      ∃ db2, medicationDelete exDBm1 exMedRec1.id = .ok db2 ∧
        ∃ db3 r3, medicationCreate db2 "u1" exMedDto2 "m3" = .ok (db3, r3)) ∧
    ((∃ msg, allergyCreate exDBa1 "u1" exAllDto2 "other" "a2" =
        .error (.conflict msg)) ∧
      ∃ db2, allergyDelete exDBa1 exAllRec1.id = .ok db2 ∧
        ∃ db3 r3, allergyCreate db2 "u1" exAllDto2 "other" "a3" =
          .ok (db3, r3)) :=
  ⟨duplicate_key_lifecycle.1 exDB0 "u1" exMedDto1 exMedDto2 "m1" "m2" "m3"
      exDBm1 exMedRec1 (by decide) (by decide) (by rfl),
   duplicate_key_lifecycle.2 exDB0 "u1" exAllDto1 exAllDto2 "food" "other"
      "a9" "a2" "a3" exDBa1 exAllRec1 (by decide) (by rfl)⟩

theorem aiMapItem_id (parsedList : Option (List AiItemRecommendation))
    (id : String) : (aiMapItem parsedList id).id = id := by
  unfold aiMapItem
  split <;> rfl

/-- C8 counterexample: on a successful collaborator response that omits the
user's lifestyle habit and document, the substituted defaults are
relevant (isRelevant = true) for both — not the claimed not-relevant
judgment. -/
theorem ai_omitted_items_default_relevant :
    (generateHealthPassRecommendationsAi exUserDataHD
        (.success exParsedEmpty)).habitRecommendations =
      [{ id := "smoking", isRelevant := true,
         recommendation := "Recommended to share with your doctor." }] ∧
    (generateHealthPassRecommendationsAi exUserDataHD
        (.success exParsedEmpty)).documentRecommendations =
      [{ id := "d1", isRelevant := true,
         recommendation := "Recommended to share with your doctor." }] :=
  ⟨rfl, rfl⟩

/-- C8 (amended): the normalized collaborator result always contains exactly
one judgment per input item (keyed by id, or category for habits) and the
wrapper never fails; when the whole call fails or its content is malformed,
the caught-error defaults are relevant for conditions, medications and
allergies and not-relevant for habits and documents; but when a successful
response merely omits an item, the substituted per-item default is relevant
(isRelevant = true) in every category, habits and documents included. -/
theorem ai_recommendations_total_with_defaults :
    (∀ (userData : AiUserData) (outcome : AiOutcome),
      (generateHealthPassRecommendationsAi userData
          outcome).conditionRecommendations.map (·.id) =
        userData.conditions.map (·.id) ∧
      (generateHealthPassRecommendationsAi userData
          outcome).medicationRecommendations.map (·.id) =
        userData.medications.map (·.id) ∧
      (generateHealthPassRecommendationsAi userData
          outcome).allergyRecommendations.map (·.id) =
        userData.allergies.map (·.id) ∧
      (generateHealthPassRecommendationsAi userData
          outcome).habitRecommendations.map (·.id) =
        userData.habits.map (·.category) ∧
      (generateHealthPassRecommendationsAi userData
          outcome).documentRecommendations.map (·.id) =
        userData.documents.map (·.id)) ∧
    (∀ userData : AiUserData,
      (∀ j ∈ (generateHealthPassRecommendationsAi userData
          .failure).conditionRecommendations, j.isRelevant = true) ∧
      (∀ j ∈ (generateHealthPassRecommendationsAi userData
          .failure).medicationRecommendations, j.isRelevant = true) ∧
      (∀ j ∈ (generateHealthPassRecommendationsAi userData
          .failure).allergyRecommendations, j.isRelevant = true) ∧
      (∀ j ∈ (generateHealthPassRecommendationsAi userData
          .failure).habitRecommendations, j.isRelevant = false) ∧
      (∀ j ∈ (generateHealthPassRecommendationsAi userData
          .failure).documentRecommendations, j.isRelevant = false)) ∧
    (∀ (userData : AiUserData) (parsed : ParsedAiResponse),
      (∀ c ∈ userData.conditions,
        (parsed.conditionRecommendations.getD []).find?
          (fun x => x.id == c.id) = none →
        aiCreateDefaultRecommendation c.id ∈
          (generateHealthPassRecommendationsAi userData
            (.success parsed)).conditionRecommendations) ∧
      (∀ h ∈ userData.habits,
        (parsed.habitRecommendations.getD []).find?
          (fun x => x.id == h.category) = none →
        aiCreateDefaultRecommendation h.category ∈
          (generateHealthPassRecommendationsAi userData
            (.success parsed)).habitRecommendations) ∧
      (∀ d ∈ userData.documents,
        (parsed.documentRecommendations.getD []).find?
          (fun x => x.id == d.id) = none →
        aiCreateDefaultRecommendation d.id ∈
          (generateHealthPassRecommendationsAi userData
            (.success parsed)).documentRecommendations)) ∧
    (∀ id, (aiCreateDefaultRecommendation id).isRelevant = true) := by
  refine ⟨?_, ?_, ?_, fun id => rfl⟩
  · intro userData outcome
    cases outcome with
    | success parsed =>
      refine ⟨?_, ?_, ?_, ?_, ?_⟩ <;>
        simp only [generateHealthPassRecommendationsAi, List.map_map] <;>
        exact List.map_congr_left (fun x _ => aiMapItem_id _ _)
    | failure =>
      refine ⟨?_, ?_, ?_, ?_, ?_⟩ <;>
        simp only [generateHealthPassRecommendationsAi, List.map_map] <;>
        exact List.map_congr_left (fun x _ => rfl)
  · intro userData
    refine ⟨?_, ?_, ?_, ?_, ?_⟩ <;>
      · intro j hj
        simp only [generateHealthPassRecommendationsAi] at hj
        rcases List.mem_map.mp hj with ⟨x, _, hx⟩
        rw [← hx]
  · intro userData parsed
    refine ⟨?_, ?_, ?_⟩
    · intro c hc hnone
      simp only [generateHealthPassRecommendationsAi]
      refine List.mem_map.mpr ⟨c, hc, ?_⟩
      unfold aiMapItem
      rw [hnone]
    · intro h hh hnone
      simp only [generateHealthPassRecommendationsAi]
      refine List.mem_map.mpr ⟨h, hh, ?_⟩
      unfold aiMapItem
      rw [hnone]
    · intro d hd hnone
      simp only [generateHealthPassRecommendationsAi]
      refine List.mem_map.mpr ⟨d, hd, ?_⟩
      unfold aiMapItem
      rw [hnone]

/-- Witness for C8 (amended) at concrete inputs: the one-habit one-document
record set under a response judging only the document, the caught-failure
path, and an omitting response. -/
theorem ai_recommendations_total_with_defaults_witness :
    (generateHealthPassRecommendationsAi exUserDataHD
        (.success exParsedDoc)).documentRecommendations.map (·.id) =
      exUserDataHD.documents.map (·.id) ∧
    ({ id := "smoking", isRelevant := false,
       recommendation := "Share if relevant to your appointment." } :
        AiItemRecommendation).isRelevant = false ∧
    aiCreateDefaultRecommendation "d1" ∈
      (generateHealthPassRecommendationsAi exUserDataHD
        (.success exParsedEmpty)).documentRecommendations ∧
    (aiCreateDefaultRecommendation "x").isRelevant = true :=
  ⟨((ai_recommendations_total_with_defaults.1 exUserDataHD
      (.success exParsedDoc)).2.2.2.2),
   ((ai_recommendations_total_with_defaults.2.1 exUserDataHD).2.2.2.1
      { id := "smoking", isRelevant := false,
        recommendation := "Share if relevant to your appointment." }
      (by decide)),
   ((ai_recommendations_total_with_defaults.2.2.1 exUserDataHD
      exParsedEmpty).2.2 exDoc (by decide) (by rfl)),
   (ai_recommendations_total_with_defaults.2.2.2 "x")⟩

theorem medicationGetSummaries_all {db : DB} {uid : String}
    {ids : Option (List String)} (h : ids = none ∨ ids = some []) :
    ∀ m ∈ db.medications, m.userId = uid → m.isActive = true →
      ({ id := m.id, medicationName := m.medicationName,
         dosageAmount := m.dosageAmount, frequency := m.frequency } :
        MedicationSummary) ∈ medicationGetSummaries db uid ids := by
  intro m hm huid hact
  have hbase : m ∈ db.medications.filter
      (fun x => x.userId == uid && x.isActive) :=
    List.mem_filter.mpr ⟨hm, by simp [huid, hact]⟩
  unfold medicationGetSummaries applySpecificIds
  rcases h with h | h <;> rw [h]
  · exact List.mem_map.mpr ⟨m, hbase, rfl⟩
  · simp only [List.length_nil, gt_iff_lt, Nat.lt_irrefl, if_false]
    exact List.mem_map.mpr ⟨m, hbase, rfl⟩

theorem allergyGetSummaries_all {db : DB} {uid : String}
    {ids : Option (List String)} (h : ids = none ∨ ids = some []) :
    ∀ a ∈ db.allergies, a.userId = uid → a.isActive = true →
      ({ id := a.id, allergen := a.allergen, type := a.type,
         severity := a.severity } : AllergySummary) ∈
        allergyGetSummaries db uid ids := by
  intro a ha huid hact
  have hbase : a ∈ db.allergies.filter
      (fun x => x.userId == uid && x.isActive) :=
    List.mem_filter.mpr ⟨ha, by simp [huid, hact]⟩
  unfold allergyGetSummaries applySpecificIds
  rcases h with h | h <;> rw [h]
  · exact List.mem_map.mpr ⟨a, hbase, rfl⟩
  · simp only [List.length_nil, gt_iff_lt, Nat.lt_irrefl, if_false]
    exact List.mem_map.mpr ⟨a, hbase, rfl⟩

/-- C10: getSummaries applies the ID filter only when the specific-ID list is
present and non-empty, so a missing or empty list returns every active record
of the user in the category; consequently a pass whose category boolean is on
with an empty specific-ID list exposes all of the owner's active records of
that category in the anonymous preview, rather than none. -/
theorem empty_specific_ids_expose_all_active :
    (∀ (db : DB) (uid : String) (ids : Option (List String)),
      ids = none ∨ ids = some [] →
      (∀ m ∈ db.medications, m.userId = uid → m.isActive = true →
        ({ id := m.id, medicationName := m.medicationName,
           dosageAmount := m.dosageAmount, frequency := m.frequency } :
          MedicationSummary) ∈ medicationGetSummaries db uid ids) ∧
      (∀ a ∈ db.allergies, a.userId = uid → a.isActive = true →
        ({ id := a.id, allergen := a.allergen, type := a.type,
           severity := a.severity } : AllergySummary) ∈
          allergyGetSummaries db uid ids)) ∧
    (∀ (db : DB) (hp : HealthPass) (pv : HealthPassPreviewSvc),
      generatePreviewSvc db hp = .ok pv →
      (hp.dataToggles.medications = true →
        hp.dataToggles.specificMedications = some [] →
        ∀ m ∈ db.medications, m.userId = hp.userId → m.isActive = true →
          ({ id := m.id, medicationName := m.medicationName,
             dosageAmount := m.dosageAmount, frequency := m.frequency } :
            MedicationSummary) ∈ pv.medications.getD []) ∧
      (hp.dataToggles.allergies = true →
        hp.dataToggles.specificAllergies = some [] →
        ∀ a ∈ db.allergies, a.userId = hp.userId → a.isActive = true →
          ({ id := a.id, allergen := a.allergen, type := a.type,
             severity := a.severity } : AllergySummary) ∈
            pv.allergies.getD [])) := by
  constructor
  · intro db uid ids h
    exact ⟨medicationGetSummaries_all h, allergyGetSummaries_all h⟩
  · intro db hp pv h
    unfold generatePreviewSvc at h
    split at h
    · exact absurd h (by simp)
    · rw [Except.ok.injEq] at h
      subst h
      constructor
      · intro htog hspec m hm huid hact
        simp only [htog, if_true]
        rw [Option.getD_some]
        rw [hspec]
        exact medicationGetSummaries_all (Or.inr rfl) m hm huid hact
      · intro htog hspec a ha huid hact
        simp only [htog, if_true]
        rw [Option.getD_some]
        rw [hspec]
        exact allergyGetSummaries_all (Or.inr rfl) a ha huid hact

/-- Witness for C10 at concrete inputs: exDB7's owner has one active
medication and one active allergy; the empty-spec pass's preview shows
both. -/
theorem empty_specific_ids_expose_all_active_witness :
    ({ id := "m1", medicationName := "Aspirin", dosageAmount := "100mg",
       frequency := "daily" } : MedicationSummary) ∈
      medicationGetSummaries exDB7 "u1" (some []) ∧
    ({ id := "a1", allergen := "Peanuts", type := "food",
       severity := "severe" } : AllergySummary) ∈
      allergyGetSummaries exDB7 "u1" (some []) ∧
    ({ id := "m1", medicationName := "Aspirin", dosageAmount := "100mg",
       frequency := "daily" } : MedicationSummary) ∈
      exPreviewSvc7.medications.getD [] ∧
    ({ id := "a1", allergen := "Peanuts", type := "food",
       severity := "severe" } : AllergySummary) ∈
      exPreviewSvc7.allergies.getD [] :=
  ⟨((empty_specific_ids_expose_all_active.1 exDB7 "u1" (some [])
      (Or.inr rfl)).1 exMedAspirin (by decide) rfl rfl),
   ((empty_specific_ids_expose_all_active.1 exDB7 "u1" (some [])
      (Or.inr rfl)).2 exAllergyPeanut (by decide) rfl rfl),
   ((empty_specific_ids_expose_all_active.2 exDB7 exPassEmptySpec
      exPreviewSvc7 (by rfl)).1 rfl rfl exMedAspirin (by decide) rfl rfl),
   ((empty_specific_ids_expose_all_active.2 exDB7 exPassEmptySpec
      exPreviewSvc7 (by rfl)).2 rfl rfl exAllergyPeanut (by decide) rfl rfl)⟩

/-- C9 counterexample: a pass created with a collaborator result that judges
nothing relevant stores medicalConditions = true while specificConditions is
the empty list, so the stored boolean is not equivalent to the specific-ID
list being non-empty. -/
theorem manifest_boolean_true_with_empty_list :
    healthPassCreate exDB1 "u1" exCreateDto exAiEmpty "ac" "qr" "np" "sum" 0 =
      .ok (exDB1New, exCreatedPass) ∧
    exCreatedPass.dataToggles.medicalConditions = true ∧
    exCreatedPass.dataToggles.specificConditions = some [] :=
  ⟨by rfl, rfl, rfl⟩

/-- C9 (amended): in the stored visibility manifest, all five category
booleans (lifestyle included) are unconditionally true at creation,
independent of the specific-ID lists; each specific-ID list holds exactly the
ids of that category's items judged relevant. The boolean is not derived from
the list being non-empty. -/
theorem manifest_booleans_unconditionally_true :
    ∀ db userId dto ai ac qr nid sum now db' hpn,
      healthPassCreate db userId dto ai ac qr nid sum now = .ok (db', hpn) →
      hpn.dataToggles.medicalConditions = true ∧
      hpn.dataToggles.medications = true ∧
      hpn.dataToggles.allergies = true ∧
      hpn.dataToggles.lifestyleChoices = true ∧
      hpn.dataToggles.documents = true ∧
      hpn.dataToggles.specificConditions =
        some ((ai.conditionRecommendations.filter (·.isRelevant)).map (·.id)) ∧
      hpn.dataToggles.specificMedications =
        some ((ai.medicationRecommendations.filter (·.isRelevant)).map (·.id)) ∧
      hpn.dataToggles.specificAllergies =
        some ((ai.allergyRecommendations.filter (·.isRelevant)).map (·.id)) ∧
      hpn.dataToggles.specificLifestyles =
        some ((ai.lifestyleRecommendations.filter (·.isRelevant)).map (·.id)) ∧
      hpn.dataToggles.specificDocuments =
        some ((ai.documentRecommendations.filter (·.isRelevant)).map (·.id)) := by
  intro db userId dto ai ac qr nid sum now db' hpn h
  unfold healthPassCreate at h
  split at h
  · exact absurd h (by simp)
  · rw [Except.ok.injEq, Prod.mk.injEq] at h
    obtain ⟨_, hhp⟩ := h
    subst hhp
    exact ⟨rfl, rfl, rfl, rfl, rfl, rfl, rfl, rfl, rfl, rfl⟩

/-- Witness for C9 (amended) at the concrete creation on exDB1 with the
empty collaborator result. -/
theorem manifest_booleans_unconditionally_true_witness :
    exCreatedPass.dataToggles.medicalConditions = true ∧
    exCreatedPass.dataToggles.medications = true ∧
    exCreatedPass.dataToggles.allergies = true ∧
    exCreatedPass.dataToggles.lifestyleChoices = true ∧
    exCreatedPass.dataToggles.documents = true ∧
    exCreatedPass.dataToggles.specificConditions = some [] ∧
    exCreatedPass.dataToggles.specificMedications = some [] ∧
    exCreatedPass.dataToggles.specificAllergies = some [] ∧
    exCreatedPass.dataToggles.specificLifestyles = some [] ∧
    exCreatedPass.dataToggles.specificDocuments = some [] :=
  manifest_booleans_unconditionally_true exDB1 "u1" exCreateDto exAiEmpty
    "ac" "qr" "np" "sum" 0 exDB1New exCreatedPass (by rfl)
